import Mathlib

/-!
Shallow embedding of the Akcero AI Product Builder core: the text feature
extractor, template catalog, facet synthesizers and stage orchestrator from
`A/agents/agent_utils.py`, `A/agents/*_agent.py`, `A/core/deps.py` and
`A/core/umbrella_agent.py`, together with theorems settling the frozen
claims about them.
-/

namespace Akcero

/-- Scan a haystack for a needle at every suffix position. -/
def containsSubAux (needle : List Char) : List Char → Bool
  | [] => needle.isPrefixOf []
  | c :: rest => needle.isPrefixOf (c :: rest) || containsSubAux needle rest

/-- Substring test: the embedding of the Python `needle in hay` operator. -/
def containsSub (hay needle : String) : Bool :=
  containsSubAux needle.toList hay.toList

/-- Lowercase a string (the embedding of Python `str.lower()`; ASCII case
mapping, which covers every character this repository's data and claims use). -/
def pyLower (s : String) : String :=
  String.mk (s.toList.map Char.toLower)

/-- Strip leading and trailing whitespace from a character list. -/
def stripChars (cs : List Char) : List Char :=
  ((cs.dropWhile Char.isWhitespace).reverse.dropWhile Char.isWhitespace).reverse

/-- Embedding of Python `str.strip()`. -/
def pyStrip (s : String) : String :=
  String.mk (stripChars s.toList)

/-- Worker for the whitespace-separated words of a character list: the
accumulator holds the current word, reversed. -/
def wordsCharsAux (acc : List Char) : List Char → List (List Char)
  | [] => if acc = [] then [] else [acc.reverse]
  | c :: rest =>
    if c.isWhitespace then
      (if acc = [] then wordsCharsAux [] rest else acc.reverse :: wordsCharsAux [] rest)
    else wordsCharsAux (c :: acc) rest

/-- The whitespace-separated words of a character list (empty pieces dropped),
as used by Python `str.split()` with no argument. -/
def wordsChars (cs : List Char) : List (List Char) :=
  wordsCharsAux [] cs

/-- Split a character list on a single-character separator. -/
def splitCharAux (sep : Char) : List Char → List Char → List (List Char)
  | [], acc => [acc.reverse]
  | c :: rest, acc =>
    if c == sep then acc.reverse :: splitCharAux sep rest []
    else splitCharAux sep rest (c :: acc)

/-- Embedding of Python `str.split(sep)`; every separator the source passes
("&", ",", the newline of splitlines) is a single character. -/
def pySplit (sep : Char) (s : String) : List String :=
  (splitCharAux sep s.toList []).map (fun cs => String.mk cs)

/-- Replace every non-overlapping occurrence of a non-empty needle, scanning
left to right; the counter consumes the remaining characters of a needle whose
replacement has already been emitted. -/
def replaceCharsAux (needle repl : List Char) : Nat → List Char → List Char
  | _, [] => []
  | skip + 1, _ :: rest => replaceCharsAux needle repl skip rest
  | 0, c :: rest =>
    if needle.isPrefixOf (c :: rest) then
      repl ++ replaceCharsAux needle repl (needle.length - 1) rest
    else
      c :: replaceCharsAux needle repl 0 rest

/-- Replace every non-overlapping occurrence of a non-empty needle. -/
def replaceChars (needle repl cs : List Char) : List Char :=
  replaceCharsAux needle repl 0 cs

/-- Embedding of Python `str.replace(needle, repl)`. -/
def pyReplace (s needle repl : String) : String :=
  String.mk (replaceChars needle.toList repl.toList s.toList)

/-- Embedding of Python `sep.join(parts)`. -/
def pyJoin (sep : String) (parts : List String) : String :=
  String.mk (List.intercalate sep.toList (parts.map (fun p => p.toList)))

/-- Stable insertion into a count-descending ranking: an element goes before
the first strictly smaller count, after equal counts that were ranked earlier. -/
def insertByCountDesc (x : String × Nat) : List (String × Nat) → List (String × Nat)
  | [] => [x]
  | y :: ys => if x.2 ≥ y.2 then x :: y :: ys else y :: insertByCountDesc x ys

/-- Stable sort by count descending, the ordering of `Counter.most_common`
(ties keep first-occurrence order, as Python's stable sort does). -/
def sortByCountDesc : List (String × Nat) → List (String × Nat)
  | [] => []
  | x :: xs => insertByCountDesc x (sortByCountDesc xs)

/-- Worker for `dedupFirst`: keep entries not seen before, in order. -/
def dedupFirstAux {α : Type} [DecidableEq α] (seen : List α) : List α → List α
  | [] => []
  | a :: l => if a ∈ seen then dedupFirstAux seen l else a :: dedupFirstAux (a :: seen) l

/-- Embedding of `list(dict.fromkeys(xs))`: drop duplicates, keeping the first
occurrence of each entry, in order of first appearance. -/
def dedupFirst {α : Type} [DecidableEq α] (l : List α) : List α :=
  dedupFirstAux [] l

theorem dedupFirstAux_sublist {α : Type} [DecidableEq α] :
    ∀ (l : List α) (seen : List α), (dedupFirstAux seen l).Sublist l
  | [], _ => by simp [dedupFirstAux]
  | a :: l, seen => by
    rw [dedupFirstAux]
    split
    · exact (dedupFirstAux_sublist l seen).cons a
    · exact (dedupFirstAux_sublist l (a :: seen)).cons₂ a

theorem dedupFirst_sublist {α : Type} [DecidableEq α] (l : List α) :
    (dedupFirst l).Sublist l :=
  dedupFirstAux_sublist l []

theorem mem_dedupFirstAux {α : Type} [DecidableEq α] :
    ∀ (l : List α) (seen : List α) (x : α),
      x ∈ dedupFirstAux seen l ↔ x ∈ l ∧ x ∉ seen
  | [], seen, x => by simp [dedupFirstAux]
  | a :: l, seen, x => by
    rw [dedupFirstAux]
    split
    · rename_i ha
      rw [mem_dedupFirstAux l seen x]
      constructor
      · exact fun h => ⟨List.mem_cons_of_mem a h.1, h.2⟩
      · rintro ⟨h1, h2⟩
        rcases List.mem_cons.mp h1 with rfl | h1
        · exact absurd ha h2
        · exact ⟨h1, h2⟩
    · rename_i ha
      constructor
      · intro h
        rcases List.mem_cons.mp h with rfl | h
        · exact ⟨List.mem_cons_self _ _, ha⟩
        · have := (mem_dedupFirstAux l (a :: seen) x).mp h
          exact ⟨List.mem_cons_of_mem a this.1,
            fun hx => this.2 (List.mem_cons_of_mem a hx)⟩
      · rintro ⟨h1, h2⟩
        rcases List.mem_cons.mp h1 with rfl | h1
        · exact List.mem_cons_self _ _
        · by_cases hxa : x = a
          · exact hxa ▸ List.mem_cons_self _ _
          · refine List.mem_cons_of_mem a ((mem_dedupFirstAux l (a :: seen) x).mpr ⟨h1, ?_⟩)
            intro hx
            rcases List.mem_cons.mp hx with h | h
            · exact hxa h
            · exact h2 h

theorem mem_dedupFirst {α : Type} [DecidableEq α] (l : List α) (x : α) :
    x ∈ dedupFirst l ↔ x ∈ l := by
  rw [dedupFirst, mem_dedupFirstAux]
  simp

theorem dedupFirstAux_nodup {α : Type} [DecidableEq α] :
    ∀ (l : List α) (seen : List α), (dedupFirstAux seen l).Nodup
  | [], _ => by simp [dedupFirstAux]
  | a :: l, seen => by
    rw [dedupFirstAux]
    split
    · exact dedupFirstAux_nodup l seen
    · refine List.nodup_cons.mpr ⟨fun hmem => ?_, dedupFirstAux_nodup l (a :: seen)⟩
      exact ((mem_dedupFirstAux l (a :: seen) a).mp hmem).2 (List.mem_cons_self _ _)

theorem dedupFirst_nodup {α : Type} [DecidableEq α] (l : List α) : (dedupFirst l).Nodup :=
  dedupFirstAux_nodup l []

/-- The de-duplication invariant for one list field: no duplicates, order of
first appearance preserved (a sublist of the pre-dedup sequence), and exactly
the members of the pre-dedup sequence. -/
def dedupOK (result raw : List String) : Prop :=
  result.Nodup ∧ result.Sublist raw ∧ ∀ x, x ∈ result ↔ x ∈ raw

theorem dedupOK_dedupFirst (raw : List String) : dedupOK (dedupFirst raw) raw :=
  ⟨dedupFirst_nodup raw, dedupFirst_sublist raw, mem_dedupFirst raw⟩

/-- The `value or fallback` idiom on optional strings: missing and empty
strings are falsy. -/
def orElseStr (v : Option String) (fallback : String) : String :=
  match v with
  | some s => if s = "" then fallback else s
  | none => fallback

/-- Embedding of `str.title()` over a character list: the first letter of each
alphabetic run is uppercased, subsequent letters are lowercased. -/
def pyTitleAux : Bool → List Char → List Char
  | _, [] => []
  | prevAlpha, c :: rest =>
    if c.isAlpha then
      (if prevAlpha then c.toLower else c.toUpper) :: pyTitleAux true rest
    else
      c :: pyTitleAux false rest

/-- Embedding of Python `str.title()`. -/
def pyTitle (s : String) : String :=
  String.mk (pyTitleAux false s.toList)

/-- Embedding of `len(text.split())`: whitespace-separated word count with
empty pieces dropped. -/
def wordCount (text : String) : Nat :=
  (wordsChars text.toList).length

/-- Collapse each whitespace run to a single space (the `re.sub(r"\s+", " ", ·)`
step of `normalize`); the flag records being inside a run already emitted. -/
def collapseWSAux : Bool → List Char → List Char
  | _, [] => []
  | inRun, c :: rest =>
    if c.isWhitespace then
      (if inRun then collapseWSAux true rest else ' ' :: collapseWSAux true rest)
    else c :: collapseWSAux false rest

/-- Collapse whitespace runs to single spaces. -/
def collapseWS (cs : List Char) : List Char :=
  collapseWSAux false cs

/-- Embedding of `normalize` from agent_utils.py: strip, then collapse whitespace runs. -/
def normalize (text : String) : String :=
  String.mk (collapseWS (stripChars text.toList))

/-- Whether a character ends a sentence for `tokenize_sentences`
(the `[.!?]` class of the split pattern). -/
def isSentEnd (c : Char) : Bool :=
  c == '.' || c == '!' || c == '?'

/-- Splitting on the regex `[.!?]\s+`: a sentence boundary is a terminator
character followed by at least one whitespace character, which is consumed
greedily; the flag records being inside that whitespace run. -/
def splitSentencesAux : Bool → List Char → List Char → List (List Char)
  | _, [], acc => [acc.reverse]
  | skipping, c :: rest, acc =>
    if skipping && c.isWhitespace then splitSentencesAux true rest acc
    else if isSentEnd c && (match rest.head? with | some d => d.isWhitespace | none => false) then
      acc.reverse :: splitSentencesAux true rest []
    else
      splitSentencesAux false rest (c :: acc)

/-- Embedding of `tokenize_sentences` from agent_utils.py. -/
def tokenize_sentences (text : String) : List String :=
  ((splitSentencesAux false text.toList []).map (fun cs => normalize (String.mk cs))).filter
    (fun s => s ≠ "")

/-- Embedding of `re.findall(r"[a-zA-Z][a-zA-Z0-9-]+", ·)`: maximal runs of letters, digits
and hyphens that start with a letter, of length at least two. The accumulator
holds the token being built, reversed; a breaking character can never itself
start a token, so it is consumed. -/
def findTokensAux (acc : List Char) : List Char → List (List Char)
  | [] => if acc.length ≥ 2 then [acc.reverse] else []
  | c :: rest =>
    if acc = [] then
      (if c.isAlpha then findTokensAux [c] rest else findTokensAux [] rest)
    else if c.isAlphanum || c == '-' then findTokensAux (c :: acc) rest
    else if acc.length ≥ 2 then acc.reverse :: findTokensAux [] rest
    else findTokensAux [] rest


/-- STOPWORDS from agent_utils.py (a Python set; only membership is used). -/
def STOPWORDS : List String :=
  ["the", "and", "for", "with", "that", "from", "into", "this", "your", "their", "about", "will", "make", "build", "help", "using", "through", "across", "data", "user", "users", "product", "ai", "artificial", "intelligence", "system", "platform", "experience", "solution", "create", "creating", "design", "digital", "idea", "ideas", "team", "teams"]

/-- DOMAIN_CATEGORY mapping, in source insertion order. -/
def DOMAIN_CATEGORY : List (String × String) :=
  [("Healthcare & Wellness", "Healthcare"),
   ("Finance & Fintech", "Finance"),
   ("Education & Learning", "Education"),
   ("Commerce & Retail", "Commerce"),
   ("Productivity & Collaboration", "Productivity"),
   ("Customer Experience", "Customer"),
   ("Developer Tools", "Developer"),
   ("Marketing & Growth", "Marketing"),
   ("Sustainability & Climate", "Sustainability"),
   ("Manufacturing & Industry", "Industry"),
   ("Technology & Innovation", "Innovation")]

/-- ATTRIBUTE_KEYWORDS, attribute name to keyword set, in source order. -/
def ATTRIBUTE_KEYWORDS : List (String × List String) :=
  [("regulatory", ["regulation", "regulated", "compliance", "hipaa", "gdpr", "sox", "audit", "risk", "governance"]),
   ("marketplace", ["marketplace", "two-sided", "multi-sided", "buyers", "sellers", "vendors", "matching"]),
   ("hardware", ["hardware", "device", "sensor", "iot", "wearable", "embedded"]),
   ("realtime", ["real-time", "realtime", "live", "streaming", "instant", "event-driven"]),
   ("data_heavy", ["analytics", "warehouse", "lakehouse", "big data", "data", "insight", "forecast"]),
   ("mobile", ["mobile", "ios", "android", "smartphone"]),
   ("enterprise", ["enterprise", "fortune", "corporate", "global"]),
   ("community", ["community", "social", "network", "member"]),
   ("developer", ["developer", "api", "sdk", "cli", "devops"]),
   ("ai_native", ["agent", "agents", "multi-agent", "autonomous"])]

/-- COMPLEXITY_WEIGHTS table; attributes absent from it weigh 1 via the .get default. -/
def COMPLEXITY_WEIGHTS : List (String × Nat) :=
  [("regulatory", 2), ("marketplace", 2), ("hardware", 2), ("enterprise", 1), ("data_heavy", 1), ("realtime", 1), ("developer", 1), ("mobile", 1), ("community", 1)]

/-- Shape of one BUSINESS_TEMPLATES record. -/
structure BusinessTemplate where
  model : String
  pricing : String
  revenue : List String
  gtm : String
  partners : List String
  key_metrics : List String
  enablement : List String
  expansion : String
deriving DecidableEq

/-- The "Innovation" record of BUSINESS_TEMPLATES, the .get fallback default. -/
def businessInnovation : BusinessTemplate :=
  { model := "Multi-agent SaaS with advisory overlays"
    pricing := "Tiered SaaS plus outcomes-based accelerator programs"
    revenue := ["Core multi-agent workspace", "Strategic advisory sprints", "Data & integration marketplace"]
    gtm := "Inspire {audience} through founder stories, live blueprint showcases, and community-led launches across {domain}."
    partners := ["Venture studios", "Startup communities", "Tooling ecosystems"]
    key_metrics := ["Blueprint completion velocity", "Pilot conversion to build", "Founder NPS"]
    enablement := ["Investor storytelling pack", "Blueprint KPI dashboard", "Launch playbook for co-marketing"]
    expansion := "Add vertical-specific playbooks once initial cohorts show repeatable wins."
  }

/-- BUSINESS_TEMPLATES from agent_utils.py, in source insertion order. -/
def BUSINESS_TEMPLATES : List (String × BusinessTemplate) :=
  [
   ("Healthcare",
    { model := "Compliance-first SaaS with expert enablement"
      pricing := "Pilot-based pricing tied to clinical outcomes and scale"
      revenue := ["Clinical innovation subscription for care teams", "Implementation & interoperability services", "Outcome analytics add-ons for administrators"]
      gtm := "Co-create with {audience} and hospital innovation programs, spotlighting measurable patient impact in the {domain} space."
      partners := ["Hospital innovation labs", "EHR / HL7 integration specialists", "Clinical research networks"]
      key_metrics := ["Patient outcome uplift after pilot", "Compliance audit pass rate", "Care team activation within 60 days"]
      enablement := ["Clinical validation briefs", "Security & compliance FAQ", "ROI calculator tailored to administrators"]
      expansion := "Expand into adjacent care pathways once regulatory approvals are secured."
    }),
   ("Finance",
    { model := "Risk-aware SaaS with premium analytics services"
      pricing := "Tiered pricing aligned to assets under management and automation throughput"
      revenue := ["Core compliance & automation subscription", "Premium risk analytics dashboards", "Advisory integrations and onboarding services"]
      gtm := "Leverage {audience} relationships and fintech sandboxes, emphasising trust, controls, and measurable ROI in {domain}."
      partners := ["Fintech accelerators & regulatory sandboxes", "Core banking and payment processors", "Audit and compliance consultancies"]
      key_metrics := ["Time-to-compliance reduction", "Automation-driven cost savings", "Portfolio coverage within 90 days"]
      enablement := ["Regulator-ready security brief", "Value justification deck with benchmarks", "Integration playbooks for core systems"]
      expansion := "Layer on adjacent risk products once trust is established with early adopters."
    }),
   ("Education",
    { model := "Learning innovation platform with cohort services"
      pricing := "Per-program licensing with learner volume accelerators"
      revenue := ["Institutional subscription", "Curriculum design & accreditation services", "Learning analytics premium module"]
      gtm := "Activate {audience} champions within universities and bootcamps, pairing thought leadership with credentialed pilots across {domain}."
      partners := ["Edtech accelerators", "Curriculum design experts", "Learning management vendors"]
      key_metrics := ["Learner engagement score", "Time-to-curriculum refresh", "Placement or certification uplift"]
      enablement := ["Instructional design case studies", "Learner journey storyboard", "Funding & grants negotiation toolkit"]
      expansion := "Extend to corporate enablement and lifelong learning marketplaces once initial programs excel."
    }),
   ("Commerce",
    { model := "Experience-led commerce platform with monetised insights"
      pricing := "GMV-linked SaaS with performance-based boosters"
      revenue := ["Core storefront intelligence subscription", "Conversion-optimisation services", "Data monetisation via benchmarks"]
      gtm := "Target {audience} within high-growth brands, co-market with ecosystem agencies, and prove conversion lift across {domain} segments."
      partners := ["E-commerce agencies", "Logistics & fulfilment networks", "Payment providers"]
      key_metrics := ["Average order value lift", "Checkout conversion increase", "Customer lifetime value expansion"]
      enablement := ["Merchandising playbook", "Experiment roadmap template", "Executive dashboard mockups"]
      expansion := "Scale into new verticals via channel partnerships and white-label intelligence."
    }),
   ("Productivity",
    { model := "Workflow orchestration platform with analytics add-ons"
      pricing := "Seat-based pricing with outcome accelerators"
      revenue := ["Core workspace subscription", "Automation marketplace", "Insights & governance module"]
      gtm := "Launch with {audience} inside product-led organisations, emphasising measurable cross-team velocity in the {domain} arena."
      partners := ["Product-led growth communities", "Product ops consultancies", "Integration partners (Slack, Atlassian)"]
      key_metrics := ["Workflow completion velocity", "Cross-team alignment score", "Automation adoption within 30 days"]
      enablement := ["Change management toolkit", "Operational maturity benchmark", "Executive summary narrative"]
      expansion := "Expand into adjacent departments once flagship workspace metrics are achieved."
    }),
   ("Customer",
    { model := "Customer intelligence hub with service automation"
      pricing := "Tiered pricing aligned to customer volume and SLAs"
      revenue := ["Insight subscription", "Service automation add-ons", "Voice of customer analytics"]
      gtm := "Equip {audience} with proof of CSAT gains and time-to-resolution improvements within {domain} teams."
      partners := ["CX consultancies", "CRM vendors", "Support community programs"]
      key_metrics := ["CSAT / NPS uplift", "First-response automation coverage", "Retention increase across segments"]
      enablement := ["Executive listening tour agenda", "Customer journey storyboard", "Automation ROI worksheet"]
      expansion := "Layer in revenue enablement offerings once support motion proves value."
    }),
   ("Developer",
    { model := "Usage-based API platform with collaboration seats"
      pricing := "Pay-as-you-go API meters plus enterprise support plans"
      revenue := ["Core API consumption", "Premium orchestration add-ons", "Enterprise success engineering"]
      gtm := "Drive adoption through {audience}, open-source showcases, and deep integration tutorials tailored to {domain} builders."
      partners := ["Developer advocacy communities", "Cloud marketplaces", "Systems integrators"]
      key_metrics := ["Active developers", "Time-to-first-integration", "Production usage retention"]
      enablement := ["Reference architecture kits", "Postman / SDK bundles", "Proof-of-concept accelerator scripts"]
      expansion := "Grow into ecosystem marketplaces and private deployments as enterprise demand matures."
    }),
   ("Marketing",
    { model := "Campaign intelligence platform with experiment services"
      pricing := "Channel-based tiering with performance bonuses"
      revenue := ["Growth intelligence subscription", "Managed experiment services", "Attribution analytics add-on"]
      gtm := "Collaborate with {audience} to launch lighthouse growth experiments and publish benchmark reports across {domain}."
      partners := ["Growth agencies", "Ad platforms", "Influencer networks"]
      key_metrics := ["Cost per acquisition improvement", "Campaign experiment velocity", "Pipeline contribution"]
      enablement := ["Campaign hypothesis library", "Executive revenue alignment narrative", "Attribution modelling toolkit"]
      expansion := "Introduce ecosystem marketplaces and co-marketing alliances after initial channel mastery."
    }),
   ("Sustainability",
    { model := "Impact data platform with advisory overlays"
      pricing := "Subscription indexed to emissions footprint and reporting scope"
      revenue := ["ESG reporting subscription", "Carbon reduction advisory", "Marketplace of certified partners"]
      gtm := "Activate {audience} and sustainability leads, uniting regulatory compliance with innovation narratives in {domain}."
      partners := ["Climate tech alliances", "Regulatory consultants", "Data providers (emissions, offsets)"]
      key_metrics := ["Emission reduction verified", "Reporting cycle compression", "Partner program expansion"]
      enablement := ["ESG storytelling kit", "Regulatory mapping template", "Executive sustainability heatmap"]
      expansion := "Scale into supply chain transparency once carbon accounting flywheel spins."
    }),
   ("Industry",
    { model := "Operational intelligence platform with edge services"
      pricing := "Footprint-based pricing with production outcome bonuses"
      revenue := ["Factory orchestration subscription", "Predictive maintenance services", "Supply-chain visibility add-ons"]
      gtm := "Partner with {audience} and industrial innovation labs to prove downtime reduction across {domain} plants."
      partners := ["Systems integrators", "IoT hardware vendors", "Manufacturing associations"]
      key_metrics := ["Downtime reduction", "Yield improvement", "Throughput increase"]
      enablement := ["Operational excellence playbook", "Factory data readiness assessment", "Change management workshop kit"]
      expansion := "Expand regionally via strategic OEM alliances and reseller channels."
    }),
   ("Innovation", businessInnovation)
  ]

/-- Shape of one TECH_TEMPLATES record. -/
structure TechTemplate where
  architecture : String
  stack : List String
  ai : List String
  service : List String
  data : String
  devops : List String
  integration : List String
deriving DecidableEq

/-- The "Innovation" record of TECH_TEMPLATES, the .get fallback default. -/
def techInnovation : TechTemplate :=
  { architecture := "Multi-agent orchestration fabric with shared knowledge graph and event bus"
    stack := ["FastAPI orchestrators", "React + Radix UI", "PostgreSQL + pgvector", "LangChain or LlamaIndex", "Temporal for workflow choreography"]
    ai := ["Persona-specific ideation agents", "Blueprint synthesiser", "Risk/assumption tracker"]
    service := ["Idea ingestion", "Narrative engine", "Metrics cockpit"]
    data := "Maintain living product knowledge graph with traceable rationale and embeddings."
    devops := ["IaC with Terraform", "Feature flags + experimentation", "Observability (OpenTelemetry, Grafana)"]
    integration := ["Product analytics", "CRM & pipeline", "Documentation hubs"]
  }

/-- TECH_TEMPLATES from agent_utils.py, in source insertion order. -/
def TECH_TEMPLATES : List (String × TechTemplate) :=
  [
   ("Healthcare",
    { architecture := "HIPAA-ready service mesh with governed clinical knowledge lake and audit-first workflows"
      stack := ["FastAPI microservices", "React / Next.js experience layer", "FHIR-compatible PostgreSQL + pgvector", "Airflow & dbt for governed pipelines", "Event bus via Kafka"]
      ai := ["Retrieval-augmented generation over clinical protocols", "Agent triage for risk stratification", "Quality guardrails monitoring hallucinations and compliance"]
      service := ["Identity & consent management", "Clinical evidence tagging engine", "Blueprint orchestration service"]
      data := "Govern protected health information via encrypted data lake, lineage tracking, and role-based access."
      devops := ["Terraform IaC with environment blueprints", "GitHub Actions → Argo Rollouts for progressive delivery", "Automated compliance checks & audit logging"]
      integration := ["EHR / EMR platforms", "Analytics warehouse (Snowflake / BigQuery)", "Customer success tooling"]
    }),
   ("Finance",
    { architecture := "Zero-trust microservices with streaming risk engine and immutable audit ledger"
      stack := ["Python FastAPI or JVM services", "React + Ant Design ops console", "PostgreSQL + Vitess for ledgering", "Kafka Streams for real-time scoring", "Lakehouse via Delta or Iceberg"]
      ai := ["Compliance-aware reasoning agents", "Anomaly detection on transactional data", "Scenario simulation co-pilots"]
      service := ["Policy engine & rules studio", "Risk dashboard", "Partner integration hub"]
      data := "Encrypted columnar storage with fine-grained entitlements and immutable audit trails."
      devops := ["Terraform & Atlantis workflows", "Chaos testing in non-prod", "Continuous compliance scanners"]
      integration := ["Core banking systems", "Identity providers", "RegTech feeds"]
    }),
   ("Education",
    { architecture := "Modular learning fabric with adaptive content engine and analytics lake"
      stack := ["FastAPI or NestJS services", "Next.js / Tailwind front-end", "Postgres + pgvector for content", "Superset or Metabase analytics", "Event streaming via Redpanda"]
      ai := ["Curriculum summarisation agents", "Personalised learning coach", "Assessment feedback generator"]
      service := ["Persona & cohort manager", "Content tagging & recommendation", "Credentialing & assessment"]
      data := "Capture learner telemetry into lakehouse with privacy-preserving segmentation."
      devops := ["Terraform + GitHub Actions", "Feature flag orchestration", "Observability stack (OpenTelemetry)"]
      integration := ["LMS platforms", "Video & conferencing APIs", "Student information systems"]
    }),
   ("Commerce",
    { architecture := "Event-driven commerce core with personalization engine and experimentation layer"
      stack := ["Node.js / FastAPI microservices", "React storefront & design system", "PostgreSQL + Redis for sessions", "Segment + Snowflake analytics", "Kafka / Pulsar event backbone"]
      ai := ["Dynamic merchandising agent", "Pricing optimiser", "Customer journey summariser"]
      service := ["Catalog enrichment", "Experiment management", "Marketplace orchestration"]
      data := "Unify shopper telemetry and transactions within governed lakehouse for omni-channel insights."
      devops := ["Infrastructure as code (Terraform)", "Canary deploys via Argo", "Synthetic journey monitoring"]
      integration := ["Payment gateways", "Logistics APIs", "Marketing automation"]
    }),
   ("Productivity",
    { architecture := "Composable workspace fabric with knowledge graph and automation bus"
      stack := ["Python FastAPI", "React + Chakra UI", "PostgreSQL + Neo4j knowledge graph", "Celery / Dramatiq workers", "ClickHouse analytics"]
      ai := ["Workflow summarisation agents", "Meeting synthesis", "Decision memory assistant"]
      service := ["Workspace orchestration", "Playbook library", "Integration controller"]
      data := "Capture work artefacts in searchable embeddings with strict workspace boundaries."
      devops := ["Terraform + GitHub Actions", "Service level objectives with SLO dashboards", "Feature toggle guardrails"]
      integration := ["Slack / Teams", "Project management suites", "Identity providers"]
    }),
   ("Customer",
    { architecture := "Unified customer intelligence lakehouse with service automation rail"
      stack := ["Python / Go services", "React + Storybook", "Postgres + ClickHouse", "Airbyte ingestion", "Snowflake warehouse"]
      ai := ["Sentiment clustering agents", "Playbook recommendation", "Auto-generated QBR narratives"]
      service := ["Signal ingestion", "Success planning", "Feedback triage"]
      data := "Blend CS data sources with customer journey signals into governed warehouse."
      devops := ["IaC + policy-as-code", "Golden signal monitoring", "Incident simulation"]
      integration := ["CRM suites", "Support platforms", "Product analytics"]
    }),
   ("Developer",
    { architecture := "API-first control plane with event mesh and developer experience portal"
      stack := ["Go / Rust core services", "GraphQL gateway", "PostgreSQL + Redis", "OpenTelemetry everywhere", "Vectordb (Weaviate / Pinecone)"]
      ai := ["Code assistant for integrations", "Runbook summariser", "API anomaly detection"]
      service := ["Usage analytics", "Credential & secret vault", "Extension marketplace"]
      data := "Track usage telemetry and error budgets with redaction for customer data."
      devops := ["GitOps with Argo", "Progressive delivery with Flagger", "CLIs for multi-tenant ops"]
      integration := ["Cloud marketplaces", "CI/CD tooling", "Developer analytics"]
    }),
   ("Marketing",
    { architecture := "Channel intelligence graph with experimentation and attribution layers"
      stack := ["Python services", "Next.js marketing workbench", "PostgreSQL + DuckDB", "Airflow / dbt", "Reverse ETL (Hightouch)"]
      ai := ["Campaign narrative generator", "Creative brief assistant", "Attribution explainer agent"]
      service := ["Segment harmoniser", "Experiment launcher", "Insights studio"]
      data := "Blend paid, owned, and earned channel data with privacy-aware segmentation."
      devops := ["IaC with Terraform", "Data quality monitors", "Automated backtesting"]
      integration := ["Ad platforms", "CRM & marketing automation", "Revenue systems"]
    }),
   ("Sustainability",
    { architecture := "Impact data backbone with scenario modelling engine"
      stack := ["Python services", "React + D3 visual stories", "PostgreSQL + Timescale", "Airflow sustainability pipelines", "Vector store for ESG policies"]
      ai := ["Carbon hotspot detection agent", "ESG report drafter", "Supplier classification assistant"]
      service := ["Emission data ingestion", "Target planning studio", "Partner marketplace"]
      data := "Aggregate scope 1-3 data sources with provenance tracking and assurance."
      devops := ["Terraform + Vault", "Automated assurance tests", "Forecast monitoring"]
      integration := ["ERP systems", "Supply chain data feeds", "Offset registries"]
    }),
   ("Industry",
    { architecture := "Edge-aware industrial platform with digital twin and predictive loop"
      stack := ["Go / Rust edge services", "FastAPI control plane", "Time-series DB (Influx / Timescale)", "Event backbone via Kafka", "Lakehouse on Delta"]
      ai := ["Predictive maintenance agents", "Anomaly root-cause analysis", "Production optimisation co-pilot"]
      service := ["Asset registry", "Work order automation", "Supplier orchestration"]
      data := "Sync edge telemetry into secure lakehouse with lineage and replay."
      devops := ["Infrastructure automation", "Blue/green for edge updates", "Site reliability playbooks"]
      integration := ["MES/SCADA", "ERP & PLM", "Quality management systems"]
    }),
   ("Innovation", techInnovation)
  ]

/-- Shape of one DESIGN_TEMPLATES record. -/
structure DesignTemplate where
  principles : List String
  key_screens : List String
  interaction : List String
  voice : String
  visual : String
  tone : String
deriving DecidableEq

/-- The "Innovation" record of DESIGN_TEMPLATES, the .get fallback default. -/
def designInnovation : DesignTemplate :=
  { principles := ["Story-driven intelligence", "Actionable transparency", "Momentum you can feel"]
    key_screens := ["Idea intake cockpit", "Opportunity canvas", "Blueprint narrative board", "Roadmap scenario explorer"]
    interaction := ["Multiplayer editing", "Timeline scrubbing", "Agent rationale reveals"]
    voice := "Visionary, expert, energising"
    visual := "Luminous blues with clean glassmorphism and statement typography"
    tone := "Confident storytelling that rallies investors and teams"
  }

/-- DESIGN_TEMPLATES from agent_utils.py, in source insertion order. -/
def DESIGN_TEMPLATES : List (String × DesignTemplate) :=
  [
   ("Healthcare",
    { principles := ["Empathetic clarity with clinician-first language", "Trust signals via audit trails and explainability", "Assistive automation that keeps humans in control"]
      key_screens := ["Clinical opportunity map", "Compliance command centre", "Patient impact dashboard", "Care pathway timeline"]
      interaction := ["Guided playbooks with safety checkpoints", "Evidence trace overlays", "Scenario comparison mode"]
      voice := "Reassuring, expert, compliance-aware"
      visual := "Calming neutrals with Akcero blue accents and data-rich panels"
      tone := "Evidence-led storytelling that balances innovation with safety"
    }),
   ("Finance",
    { principles := ["Control and auditability", "Scenario thinking at a glance", "Signal prioritisation for analysts"]
      key_screens := ["Risk cockpit", "Regulatory action log", "Portfolio automation canvas", "Executive reporting suite"]
      interaction := ["Explainable AI drilldowns", "Playbook builder", "Threshold alert designer"]
      voice := "Trusted, precise, and accountability-driven"
      visual := "High-contrast dashboards with precise typography and data density"
      tone := "Commanding confidence while highlighting safeguards"
    }),
   ("Education",
    { principles := ["Guided creation with playful clarity", "Community feedback loops", "Celebration of learner progress"]
      key_screens := ["Curriculum atelier", "Learner journey mapper", "Engagement analytics", "Credential showcase"]
      interaction := ["Commentary threads", "Interactive storyboards", "Adaptive preview"]
      voice := "Encouraging, human, future-positive"
      visual := "Warm neutrals with energetic accent gradients"
      tone := "Inspiring craftsmanship with practical scaffolding"
    }),
   ("Commerce",
    { principles := ["Conversion clarity", "Revenue storytelling", "Fast iteration loops"]
      key_screens := ["Revenue command centre", "Experiment tracker", "Marketplace health", "Customer journey heatmap"]
      interaction := ["Scenario toggles", "Smart playbook suggestions", "Live funnel overlays"]
      voice := "Energetic, growth-minded, and data-backed"
      visual := "Bold hero stats with modular cards and high-contrast calls-to-action"
      tone := "Outcome-obsessed yet grounded in feasibility"
    }),
   ("Productivity",
    { principles := ["Narrative alignment", "Transparency of agent decisions", "Momentum cues"]
      key_screens := ["Unified mission brief", "Dependency radar", "AI assistant timeline", "Insights backlog"]
      interaction := ["Command palette", "Timeline scrubber", "Focus mode"]
      voice := "Strategic, energising, partner-like"
      visual := "Layered cards, subtle glassmorphism, and rich whitespace"
      tone := "Confident acceleration without overwhelm"
    }),
   ("Customer",
    { principles := ["Empathy showcased by design", "Signal-to-action mapping", "Moments of celebration for wins"]
      key_screens := ["Customer health overview", "Journey timeline", "Executive briefing suite", "Renewal planner"]
      interaction := ["Success pulse checks", "Playbook branching", "Collaboration co-editing"]
      voice := "Supportive, pragmatic, north-star oriented"
      visual := "Soft gradients with crisp data cards and personable iconography"
      tone := "Empathetic authority that rallies teams"
    }),
   ("Developer",
    { principles := ["Make power visible", "Surfacing telemetry without noise", "Shortcut-first execution"]
      key_screens := ["Service topology", "Usage analytics", "API playground", "Incident retros"]
      interaction := ["Command palette + CLI parity", "Split-pane diff view", "Automations panel"]
      voice := "Direct, expert, builder-to-builder"
      visual := "Dark theme with neon accents and monospace highlights"
      tone := "Matter-of-fact, unlocking mastery and velocity"
    }),
   ("Marketing",
    { principles := ["Narrative framing of data", "Experiment storytelling", "Collaboration rituals"]
      key_screens := ["Campaign studio", "Audience intelligence", "Budget orchestration", "Launch calendar"]
      interaction := ["What-if toggles", "Creative inspiration wall", "Auto-generated executive briefs"]
      voice := "Bold, visionary, momentum-building"
      visual := "Vibrant gradient washes with crisp typography and video-friendly layouts"
      tone := "Ambitious with proof at every step"
    }),
   ("Sustainability",
    { principles := ["Transparency", "Collaborative accountability", "Hopeful pragmatism"]
      key_screens := ["Impact dashboard", "Target tracking", "Supplier alignment space", "Investor-ready narrative"]
      interaction := ["Scenario sliders", "Compliance checklists", "Goal visualisations"]
      voice := "Purposeful, optimistic, evidence-rich"
      visual := "Earthy neutrals with crisp data overlays and optimism cues"
      tone := "Inspiring urgency backed by action"
    }),
   ("Industry",
    { principles := ["Operational clarity", "Proactive alerts", "Human + machine partnership"]
      key_screens := ["Factory digital twin", "Maintenance planner", "Supply chain monitor", "Executive value cockpit"]
      interaction := ["Drill-through timelines", "Command centre quick actions", "Augmented reality overlays (roadmap)"]
      voice := "Assured, precision-focused, efficiency obsessed"
      visual := "High-contrast industrial UI with data-rich modules"
      tone := "Operationally authoritative with clear ROI"
    }),
   ("Innovation", designInnovation)
  ]

/-- Shape of one MARKET_TEMPLATES record. -/
structure MarketTemplate where
  segment : String
  competitors : List String
  differentiators : List String
  personas : List String
  channels : List String
  challenges : List String
  positioning : String
  launch : String
deriving DecidableEq

/-- The "Innovation" record of MARKET_TEMPLATES, the .get fallback default. -/
def marketInnovation : MarketTemplate :=
  { segment := "Founders and venture studios moving from concept to conviction"
    competitors := ["Notion AI", "Gamma", "FigJam"]
    differentiators := ["Six specialised agents collaborating in real-time", "Investor-ready executive narrative", "Proof loops that quantify traction"]
    personas := ["Founder", "Head of Product", "Studio partner"]
    channels := ["Founder communities", "Product Hunt", "Venture newsletters"]
    challenges := ["Signal vs noise in AI tooling", "Ensuring outcomes feel proprietary"]
    positioning := "Akcero makes every founder idea investor, customer, and team-ready through orchestrated AI agents."
    launch := "Host live multi-agent blueprint showcases and publish the Akcero Product Builder playbook."
  }

/-- MARKET_TEMPLATES from agent_utils.py, in source insertion order. -/
def MARKET_TEMPLATES : List (String × MarketTemplate) :=
  [
   ("Healthcare",
    { segment := "Healthcare innovators seeking compliant AI copilots for faster validation"
      competitors := ["Notable Health", "Abridge", "Kahun"]
      differentiators := ["Multi-agent workflow tuned for clinical governance", "Explainable narratives linked to compliance artifacts", "Out-of-the-box audit telemetry"]
      personas := ["Chief Innovation Officer", "Clinical transformation lead", "Digital health startup founder"]
      channels := ["Healthcare innovation forums", "Regulatory roundtables", "Clinical podcast circuit"]
      challenges := ["Procurement scrutiny around data residency", "Proof of clinical efficacy required"]
      positioning := "Akcero turns fragmented clinical ideas into rigorously governed product blueprints in days, not quarters."
      launch := "Secure lighthouse health systems, publish de-identified case outcomes, and host a compliance-focused launch webinar."
    }),
   ("Finance",
    { segment := "Fintech and financial ops teams pursuing supervised AI automation"
      competitors := ["Veryfi", "OpenRisk", "Canoe Intelligence"]
      differentiators := ["Continuous compliance baked into agent workflows", "Decision trails for auditors", "Real-time scenario modelling"]
      personas := ["Head of Operations", "Chief Risk Officer", "Fintech founder"]
      channels := ["Fintech accelerators", "RegTech conferences", "LinkedIn thought leadership series"]
      challenges := ["Regulatory approval timelines", "Risk-averse buyers demand references"]
      positioning := "Akcero delivers supervised AI blueprints that pass risk and compliance checks without slowing product velocity."
      launch := "Co-host sandbox demos with regulators and publish risk-case tear-downs showing measurable ROI."
    }),
   ("Education",
    { segment := "Edtech builders modernising curriculum and learner engagement with AI"
      competitors := ["Instructure AI", "Knewton", "Sana"]
      differentiators := ["Human-first storytelling for instructors", "Agent collaboration tuned for learning design", "Embedded metrics for outcomes and equity"]
      personas := ["Academic innovation dean", "Program director", "Learning design lead"]
      channels := ["Edtech communities", "Teacher influencer partnerships", "Conference workshops"]
      challenges := ["Budget cycles and accreditation", "Need to prove learner impact quickly"]
      positioning := "Akcero helps educators ship future-proof programs with agents that co-design, validate, and measure learning impact."
      launch := "Curate design partner cohort across universities and publish before/after learner stories."
    }),
   ("Commerce",
    { segment := "Commerce operators chasing conversion breakthroughs with AI-led planning"
      competitors := ["Triple Whale", "Malomo", "Shopify Sidekick"]
      differentiators := ["Multi-agent GTM orchestrations", "Narratives linking conversion gains to roadmap", "Real-time marketplace telemetry"]
      personas := ["VP Growth", "Head of Merchandising", "Founder / operator"]
      channels := ["DTC communities", "Performance marketing podcasts", "Product Hunt launch"]
      challenges := ["Crowded tooling category", "Proof required on conversion lift"]
      positioning := "Akcero transforms raw commerce ideas into conversion-maximising blueprints orchestrated by specialised agents."
      launch := "Partner with 3 flagship brands, televise experiment wins, and run joint launch live streams."
    }),
   ("Productivity",
    { segment := "Product & strategy teams aligning cross-functional delivery"
      competitors := ["Productboard", "Aha!", "Notion AI"]
      differentiators := ["Agent swarm translating narrative to execution", "Executive-ready storytelling", "Telemetry that links decision to outcome"]
      personas := ["Head of Product", "Strategy lead", "Chief of Staff"]
      channels := ["Product leadership roundtables", "Founder communities", "Thought leadership newsletter"]
      challenges := ["Need to reframe beyond classic roadmap tools", "Stakeholder trust in AI decisions"]
      positioning := "Akcero\x27s multi-agent studio makes every product idea investor, exec, and team ready in one collaborative motion."
      launch := "Host live blueprint showcases with design partners and release template library on launch week."
    }),
   ("Customer",
    { segment := "Customer success leaders scaling narrative-driven retention"
      competitors := ["Gainsight AI", "Catalyst", "Vitally"]
      differentiators := ["Blueprints connecting customer voice to roadmap", "Executive-grade narratives auto-generated", "Playbooks measured by revenue impact"]
      personas := ["VP Customer Success", "Revenue operations director", "CS Ops lead"]
      channels := ["CS leadership communities", "Revenue forums", "Webinars with customer heroes"]
      challenges := ["Proving attribution to revenue", "Integration expectations"]
      positioning := "Akcero turns customer signals into boardroom-ready blueprints that close renewals and expansions faster."
      launch := "Run a lighthouse cohort with CS leaders, publish revenue turnaround stories, and launch on G2/Product Hunt."
    }),
   ("Developer",
    { segment := "Platform and infrastructure leaders building AI-enabled tooling"
      competitors := ["Vercel AI", "Postman Intelligence", "Buildkite Copilot"]
      differentiators := ["Agentic design tailored for technical buyers", "Traceable architecture narratives", "CLI and API parity"]
      personas := ["Head of Platform", "Staff engineer", "DevRel lead"]
      channels := ["Open-source launches", "Developer conferences", "Technical AMAs"]
      challenges := ["Need to prove reliability", "Sophisticated buyer expectations"]
      positioning := "Akcero augments platform teams with agentic blueprints that ship resilient architecture and developer joy."
      launch := "Release reference architectures, run live coding streams, and create integration challenges with partners."
    }),
   ("Marketing",
    { segment := "Marketing leaders orchestrating AI-powered growth engines"
      competitors := ["Jasper", "Mutiny", "June.so"]
      differentiators := ["Narrative-first GTM agent collective", "Attribution-aware action plans", "Investor-ready storytelling"]
      personas := ["Chief Marketing Officer", "Growth director", "Brand strategist"]
      channels := ["CMO circles", "Growth podcasts", "Thought leadership reports"]
      challenges := ["Saturation of AI copy tools", "Need for proven attribution"]
      positioning := "Akcero architects growth engines that connect creative ambition to pipeline reality through specialised agents."
      launch := "Release growth benchmark report, run joint webinars with design partners, and seed community challenges."
    }),
   ("Sustainability",
    { segment := "Climate innovators and ESG leaders translating targets into action"
      competitors := ["Watershed", "Persefoni", "Sweep"]
      differentiators := ["Agent collective linking carbon data to product decisions", "Investor-grade reporting narratives", "Marketplace for certified partners"]
      personas := ["Chief Sustainability Officer", "Product sustainability lead", "Impact entrepreneur"]
      channels := ["Climate accelerators", "ESG analyst forums", "Impact investor networks"]
      challenges := ["Data quality and proof of impact", "Evolving regulations globally"]
      positioning := "Akcero compresses sustainability roadmapping from quarters to weeks with agentic rigor and measurable impact."
      launch := "Publish impact scorecards with design partners and host a climate innovation summit."
    }),
   ("Industry",
    { segment := "Industrial innovators digitising operations with AI co-pilots"
      competitors := ["Sight Machine", "Augury", "GE Predix"]
      differentiators := ["Agentic orchestration spanning plant to exec", "Digital twin storytelling", "Operational telemetry fused with product insights"]
      personas := ["VP Operations", "Digital transformation lead", "Innovation lab head"]
      channels := ["Industry consortiums", "Manufacturing events", "Public-private innovation programs"]
      challenges := ["Lengthy procurement", "Integration with legacy systems"]
      positioning := "Akcero accelerates industrial transformation with agentic blueprints that tie plant telemetry to board-level narratives."
      launch := "Co-host factory innovation tours and publish ROI benchmarks with early adopters."
    }),
   ("Innovation", marketInnovation)
  ]

/-- Shape of one TIMELINE_NOTES record. -/
structure TimelineNote where
  milestone : String
  launch : String
deriving DecidableEq

/-- The "Innovation" record of TIMELINE_NOTES, the .get fallback default. -/
def timelineNoteInnovation : TimelineNote :=
  { milestone := "Investor-ready blueprint deck signed off"
    launch := "Public beta with ambassador cohort"
  }

/-- TIMELINE_NOTES from agent_utils.py, in source insertion order. -/
def TIMELINE_NOTES : List (String × TimelineNote) :=
  [
   ("Healthcare",
    { milestone := "Clinical advisory board validates pilot protocol"
      launch := "Coordinate regulatory sign-off and publish patient impact case study"
    }),
   ("Finance",
    { milestone := "Regulatory sandbox approval achieved"
      launch := "Risk & compliance go-live checklist completed"
    }),
   ("Education",
    { milestone := "Curriculum accreditation secured"
      launch := "Learner showcase event executed"
    }),
   ("Commerce",
    { milestone := "Dual-sided pilot conversion benchmarks hit"
      launch := "Public launch paired with flagship brand testimonial"
    }),
   ("Productivity",
    { milestone := "Cross-functional operating rhythm locked"
      launch := "Company-wide rollout playbook activated"
    }),
   ("Customer",
    { milestone := "Executive renewal narrative approved"
      launch := "Customer advisory board celebrates early wins"
    }),
   ("Developer",
    { milestone := "Public API GA with reliability SLAs"
      launch := "Developer advocacy tour launched"
    }),
   ("Marketing",
    { milestone := "Signature growth experiment proves pipeline lift"
      launch := "Category narrative published with partner amplification"
    }),
   ("Sustainability",
    { milestone := "Verified carbon reduction report delivered"
      launch := "Impact summit with ecosystem partners"
    }),
   ("Industry",
    { milestone := "Predictive maintenance ROI validated"
      launch := "Factory leadership alignment summit"
    }),
   ("Innovation", timelineNoteInnovation)
  ]

/-- TIMELINE_WINDOWS duration windows per complexity tier. -/
def TIMELINE_WINDOWS : List (String × List String) :=
  [("lean", ["Weeks 1-2", "Weeks 3-5", "Weeks 6-9", "Weeks 10-13", "Weeks 14-16"]),
   ("standard", ["Weeks 1-3", "Weeks 4-7", "Weeks 8-13", "Weeks 14-18", "Weeks 19-22"]),
   ("complex", ["Weeks 1-4", "Weeks 5-9", "Weeks 10-16", "Weeks 17-22", "Weeks 23-26"])]

/-- TIMELINE_TOTAL total weeks per complexity tier. -/
def TIMELINE_TOTAL : List (String × Nat) :=
  [("lean", 16), ("standard", 22), ("complex", 26)]



/-- Embedding of `resolve_category` from agent_utils.py: map a domain to its category key,
falling back to the text before the first "&" (or "Innovation" when empty). -/
def resolve_category (domain : String) : String :=
  (DOMAIN_CATEGORY.lookup domain).getD
    (let head := pyStrip ((pySplit '&' domain).headD "")
     if head = "" then "Innovation" else head)

/-- The ten boolean attribute flags, in ATTRIBUTE_KEYWORDS insertion order. -/
structure Attributes where
  regulatory : Bool
  marketplace : Bool
  hardware : Bool
  realtime : Bool
  data_heavy : Bool
  mobile : Bool
  enterprise : Bool
  community : Bool
  developer : Bool
  ai_native : Bool
deriving DecidableEq

/-- Whether one named attribute fires on the lowered text: any of its keywords
occurs as a substring. -/
def attrActive (lowered name : String) : Bool :=
  match ATTRIBUTE_KEYWORDS.lookup name with
  | some kws => kws.any (fun k => containsSub lowered k)
  | none => false

/-- Embedding of `detect_attributes` from agent_utils.py. -/
def detect_attributes (text : String) : Attributes :=
  let lowered := pyLower text
  { regulatory := attrActive lowered "regulatory"
    marketplace := attrActive lowered "marketplace"
    hardware := attrActive lowered "hardware"
    realtime := attrActive lowered "realtime"
    data_heavy := attrActive lowered "data_heavy"
    mobile := attrActive lowered "mobile"
    enterprise := attrActive lowered "enterprise"
    community := attrActive lowered "community"
    developer := attrActive lowered "developer"
    ai_native := attrActive lowered "ai_native" }

/-- Names of the active attributes, in dict insertion order (the order of
`attributes.items()` in the source). -/
def activeAttrNames (a : Attributes) : List String :=
  (if a.regulatory then ["regulatory"] else [])
    ++ (if a.marketplace then ["marketplace"] else [])
    ++ (if a.hardware then ["hardware"] else [])
    ++ (if a.realtime then ["realtime"] else [])
    ++ (if a.data_heavy then ["data_heavy"] else [])
    ++ (if a.mobile then ["mobile"] else [])
    ++ (if a.enterprise then ["enterprise"] else [])
    ++ (if a.community then ["community"] else [])
    ++ (if a.developer then ["developer"] else [])
    ++ (if a.ai_native then ["ai_native"] else [])

/-- Embedding of `COMPLEXITY_WEIGHTS.get(attr, 1)`: the effective weight of an attribute. -/
def weightOf (attr : String) : Nat :=
  (COMPLEXITY_WEIGHTS.lookup attr).getD 1

/-- Embedding of `assess_complexity` from agent_utils.py, with the per-attribute loop
unrolled in dict insertion order (addition order is irrelevant for the sum). -/
def assess_complexity (text : String) (a : Attributes) : String :=
  let score := 1
  let score := if a.regulatory then score + weightOf "regulatory" else score
  let score := if a.marketplace then score + weightOf "marketplace" else score
  let score := if a.hardware then score + weightOf "hardware" else score
  let score := if a.realtime then score + weightOf "realtime" else score
  let score := if a.data_heavy then score + weightOf "data_heavy" else score
  let score := if a.mobile then score + weightOf "mobile" else score
  let score := if a.enterprise then score + weightOf "enterprise" else score
  let score := if a.community then score + weightOf "community" else score
  let score := if a.developer then score + weightOf "developer" else score
  let score := if a.ai_native then score + weightOf "ai_native" else score
  let wc := wordCount text
  let score := if wc > 140 then score + 1 else score
  let score := if wc > 220 then score + 1 else score
  let score := if a.regulatory && a.marketplace then score + 1 else score
  if score ≥ 6 then "complex" else if score ≥ 3 then "standard" else "lean"

/-- The name-derived trigger tokens of a domain: split on "&" / "," and
lowercase (the token computation inside `infer_domain`). -/
def domainTokens (domain : String) : List String :=
  (pySplit ',' (pyReplace domain "&" ",")).map (fun t => pyLower (pyStrip t))

/-- Embedding of `infer_domain` from agent_utils.py: first domain whose tokens occur in the
lowered text, defaulting to "Technology & Innovation". -/
def infer_domain (text : String) : String :=
  let lowered := pyLower text
  ((DOMAIN_CATEGORY.find? (fun p => (domainTokens p.1).any (fun t => containsSub lowered t))).map
    (fun p => p.1)).getD "Technology & Innovation"

/-- The audience keyword map of `infer_audience`, in source order. -/
def AUDIENCE_MAP : List (String × String) :=
  [("founder", "Founders and product leaders"),
   ("startup", "Founders and product leaders"),
   ("entrepreneur", "Founders and product leaders"),
   ("operations", "Operations and strategy teams"),
   ("strategy", "Operations and strategy teams"),
   ("pm", "Product managers and discovery leads"),
   ("enterprise", "Enterprise innovation teams"),
   ("developer", "Developers and technical platform teams"),
   ("engineer", "Developers and technical platform teams"),
   ("marketing", "Growth and marketing leadership"),
   ("growth", "Growth and marketing leadership"),
   ("customer", "Customer success and revenue leaders"),
   ("cs", "Customer success and revenue leaders"),
   ("education", "Learning and enablement leaders"),
   ("sustain", "Sustainability and impact leaders")]

/-- Embedding of `infer_audience` from agent_utils.py. -/
def infer_audience (text : String) : String :=
  let lowered := pyLower text
  ((AUDIENCE_MAP.find? (fun p => containsSub lowered p.1)).map (fun p => p.2)).getD
    (if containsSub lowered "consumer" then "Design-forward consumers"
     else "Visionary product builders")

/-- Embedding of `craft_value_props` from agent_utils.py. -/
def craft_value_props (domain audience : String) : List String :=
  let base := ["Aligns multi-disciplinary teams around a shared product narrative",
               "Transforms fuzzy concepts into execution-ready roadmaps",
               "Surfaces market-ready differentiation in every deliverable"]
  let category := resolve_category domain
  let base := if category = "Healthcare" then base ++ ["Encodes compliance and patient safety considerations by default"] else base
  let base := if category = "Finance" then base ++ ["Highlights traceability and risk controls for regulated launch"] else base
  let base := if category = "Commerce" then base ++ ["Optimises conversion levers across the buying journey"] else base
  let base := if category = "Developer" then base ++ ["Provides deep technical architecture and integration playbooks"] else base
  let base := if category = "Marketing" then base ++ ["Maps campaigns to data-backed growth experiments"] else base
  let base := if category = "Sustainability" then base ++ ["Connects impact measurement to product delivery choices"] else base
  let base := if containsSub audience "Enterprise" then base ++ ["Supports governance workflows and executive-ready reporting"] else base
  base.take 6

/-- The per-domain mapping of `derive_success_metrics`, in source order. -/
def SUCCESS_METRICS_MAP : List (String × List String) :=
  [("Healthcare & Wellness",
    ["Clinical validation achieved for top three use-cases", "HIPAA-aligned data handling sign-off"]),
   ("Finance & Fintech",
    ["Regulatory review with compliance team completed", "Pilot customers reach 20% workflow automation savings"]),
   ("Education & Learning",
    ["Learner engagement score above 75 NPS in pilot", "Curriculum iteration cycle under two weeks"]),
   ("Commerce & Retail",
    ["Average order value uplift by 15% in beta cohort", "Customer acquisition cost payback within three months"]),
   ("Productivity & Collaboration",
    ["Time-to-decision reduced by 30% across teams", "Weekly active usage above 65% of invited members"]),
   ("Customer Experience",
    ["CSAT improvement of 10 points post-launch", "First-response automation covering 40% of tickets"]),
   ("Developer Tools",
    ["Time-to-first-API-call under 5 minutes", "95%+ reliability across key endpoints"]),
   ("Marketing & Growth",
    ["Pipeline contribution up 25%", "Test velocity doubles without infrastructure debt"]),
   ("Sustainability & Climate",
    ["Verified carbon reduction milestone", "Supply chain transparency index uplift"]),
   ("Manufacturing & Industry",
    ["Downtime reduced by 20% in pilot facilities", "Yield and throughput improvements documented"])]

/-- Embedding of `derive_success_metrics` from agent_utils.py. -/
def derive_success_metrics (domain : String) : List String :=
  ((SUCCESS_METRICS_MAP.lookup domain).getD
     ["100 design partner sessions completed", "Launch readiness scorecard signed off by leadership"])
    ++ ["Founders unlock clear investor-ready storytelling"]


/-- Category-resolved business template record (the `.get` with Innovation
fallback on the resolved category). -/
def businessTemplateFor (domain : String) : BusinessTemplate :=
  (BUSINESS_TEMPLATES.lookup (resolve_category domain)).getD businessInnovation

/-- Category-resolved tech template record. -/
def techTemplateFor (domain : String) : TechTemplate :=
  (TECH_TEMPLATES.lookup (resolve_category domain)).getD techInnovation

/-- Category-resolved design template record. -/
def designTemplateFor (domain : String) : DesignTemplate :=
  (DESIGN_TEMPLATES.lookup (resolve_category domain)).getD designInnovation

/-- Category-resolved market template record. -/
def marketTemplateFor (domain : String) : MarketTemplate :=
  (MARKET_TEMPLATES.lookup (resolve_category domain)).getD marketInnovation

/-- The revenue list of `get_business_playbook` after the attribute-conditioned
appends, before the final de-duplication. -/
def business_revenue_raw (t : BusinessTemplate) (a : Attributes) : List String :=
  let revenue := t.revenue
  let revenue := if a.marketplace then revenue ++ ["Curated marketplace commissions and vendor sponsorships"] else revenue
  let revenue := if a.developer then revenue ++ ["Usage-based API tier with premium tooling bundles"] else revenue
  let revenue := if a.community then revenue ++ ["Community membership and certification programs"] else revenue
  revenue

/-- The partners list of `get_business_playbook` before de-duplication. -/
def business_partners_raw (t : BusinessTemplate) (a : Attributes) : List String :=
  if a.enterprise then t.partners ++ ["Enterprise enablement consultancies"] else t.partners

/-- The key-metrics list of `get_business_playbook` before de-duplication. -/
def business_key_metrics_raw (t : BusinessTemplate) (a : Attributes) : List String :=
  if a.regulatory then t.key_metrics ++ ["Regulatory milestone velocity"] else t.key_metrics

/-- The enablement list of `get_business_playbook` before de-duplication. -/
def business_enablement_raw (t : BusinessTemplate) (a : Attributes) : List String :=
  let enablement := t.enablement
  let enablement := if a.developer then enablement ++ ["Developer-first documentation and SDK launch kit"] else enablement
  let enablement := if a.enterprise then enablement ++ ["Executive risk mitigation narrative"] else enablement
  enablement

/-- Result shape of `get_business_playbook`. -/
structure BusinessPlaybook where
  model : String
  pricing_strategy : String
  revenue_streams : List String
  go_to_market : String
  partners : List String
  key_metrics : List String
  sales_enablement : List String
  expansion_strategy : String
  complexity_profile : String
deriving DecidableEq

/-- Embedding of `get_business_playbook` from agent_utils.py. -/
def get_business_playbook (domain audience : String) (a : Attributes) (complexity : String)
    (base_model : Option String) : BusinessPlaybook :=
  let template := businessTemplateFor domain
  let pricing_strategy := template.pricing
  let model := orElseStr base_model template.model
  let bm := base_model.getD ""
  let model := if bm ≠ "" ∧ ¬ containsSub (pyLower template.model) (pyLower bm)
               then bm ++ " | " ++ template.model else model
  let go_to_market := pyReplace (pyReplace template.gtm "{audience}" audience) "{domain}" (pyLower domain)
  let go_to_market := if a.marketplace then go_to_market ++ " Recruit a dual-sided design partner cohort to validate supply-demand resonance." else go_to_market
  let go_to_market := if a.community then go_to_market ++ " Launch ambassador-driven community drops and co-creation labs." else go_to_market
  let pricing_strategy := if a.regulatory then pricing_strategy ++ " Include compliance assurance fees for bespoke reviews." else pricing_strategy
  { model := model
    pricing_strategy := pricing_strategy
    revenue_streams := dedupFirst (business_revenue_raw template a)
    go_to_market := go_to_market
    partners := dedupFirst (business_partners_raw template a)
    key_metrics := dedupFirst (business_key_metrics_raw template a)
    sales_enablement := dedupFirst (business_enablement_raw template a)
    expansion_strategy := template.expansion
    complexity_profile := pyTitle complexity }

/-- The stack list of `get_tech_playbook` after attribute appends, before
de-duplication: the mobile append checks the stack built so far. -/
def tech_stack_raw (t : TechTemplate) (a : Attributes) : List String :=
  let stack := t.stack
  let stack := if a.realtime then stack ++ ["Event streaming backbone (Kafka / Pulsar)"] else stack
  let stack := if a.hardware then stack ++ ["IoT ingestion via MQTT/Greengrass"] else stack
  let stack := if a.mobile && stack.all (fun item => !(containsSub item "React Native"))
               then stack ++ ["React Native / Expo mobile shell"] else stack
  stack

/-- The AI-components list of `get_tech_playbook` before de-duplication. -/
def tech_ai_raw (t : TechTemplate) (a : Attributes) : List String :=
  let ai := t.ai
  let ai := if a.realtime then ai ++ ["Real-time signal prioritisation agent"] else ai
  let ai := if a.marketplace then ai ++ ["Marketplace liquidity forecaster"] else ai
  ai

/-- The service-components list of `get_tech_playbook` before de-duplication. -/
def tech_service_raw (t : TechTemplate) (a : Attributes) : List String :=
  let service := t.service
  let service := if a.marketplace then service ++ ["Supply-demand matching engine"] else service
  let service := if a.hardware then service ++ ["Edge device fleet manager"] else service
  service

/-- The devops list of `get_tech_playbook` before de-duplication. -/
def tech_devops_raw (t : TechTemplate) (a : Attributes) : List String :=
  let devops := t.devops
  let devops := if a.developer then devops ++ ["Developer sandbox orchestration"] else devops
  let devops := if a.enterprise then devops ++ ["Policy-as-code with Conftest / OPA"] else devops
  devops

/-- The integration list of `get_tech_playbook` before de-duplication. -/
def tech_integration_raw (t : TechTemplate) (a : Attributes) : List String :=
  if a.developer then t.integration ++ ["CLI and SDK distribution pipeline"] else t.integration

/-- Result shape of `get_tech_playbook`. -/
structure TechPlaybook where
  architecture : String
  stack : List String
  ai_components : List String
  service_components : List String
  data_strategy : String
  devops : List String
  integration_points : List String
  resilience_notes : String
deriving DecidableEq

/-- Embedding of `get_tech_playbook` from agent_utils.py. -/
def get_tech_playbook (domain : String) (a : Attributes) (complexity : String) : TechPlaybook :=
  let template := techTemplateFor domain
  { architecture := template.architecture
    stack := dedupFirst (tech_stack_raw template a)
    ai_components := dedupFirst (tech_ai_raw template a)
    service_components := dedupFirst (tech_service_raw template a)
    data_strategy := template.data
    devops := dedupFirst (tech_devops_raw template a)
    integration_points := dedupFirst (tech_integration_raw template a)
    resilience_notes := pyTitle complexity ++ " delivery profile with guardrails for "
      ++ (pyLower (resolve_category domain)) ++ " workloads." }

/-- The principles list of `get_design_palette` before de-duplication. -/
def design_principles_raw (t : DesignTemplate) (a : Attributes) : List String :=
  let principles := t.principles
  let principles := if a.developer then principles ++ ["Expose system status for advanced users"] else principles
  let principles := if a.regulatory then principles ++ ["Surface compliance guardrails contextually"] else principles
  principles

/-- The key-screens list of `get_design_palette` before de-duplication. -/
def design_key_screens_raw (t : DesignTemplate) (a : Attributes) : List String :=
  let key_screens := t.key_screens
  let key_screens := if a.marketplace then key_screens ++ ["Supply & demand orchestration board"] else key_screens
  let key_screens := if a.community then key_screens ++ ["Community pulse and ambassador missions"] else key_screens
  key_screens

/-- The interaction-patterns list of `get_design_palette` before de-duplication. -/
def design_interaction_raw (t : DesignTemplate) (a : Attributes) : List String :=
  let interaction := t.interaction
  let interaction := if a.developer then interaction ++ ["Keyboard-first power commands"] else interaction
  let interaction := if a.regulatory then interaction ++ ["Audit-ready export flows"] else interaction
  interaction

/-- Result shape of `get_design_palette`. -/
structure DesignPalette where
  experience_principles : List String
  key_screens : List String
  interaction_patterns : List String
  brand_voice : String
  visual_language : String
  content_tone : String
  design_complexity : String
deriving DecidableEq

/-- Embedding of `get_design_palette` from agent_utils.py. -/
def get_design_palette (domain audience : String) (a : Attributes) (complexity : String) : DesignPalette :=
  let template := designTemplateFor domain
  let brand_voice := template.voice
  let tone := template.tone
  let brand_voice := if containsSub audience "Enterprise" then brand_voice ++ " with executive polish" else brand_voice
  let tone := if containsSub audience "Enterprise" then tone ++ ". Always tie outcomes to strategic imperatives." else tone
  { experience_principles := dedupFirst (design_principles_raw template a)
    key_screens := dedupFirst (design_key_screens_raw template a)
    interaction_patterns := dedupFirst (design_interaction_raw template a)
    brand_voice := brand_voice
    visual_language := template.visual
    content_tone := tone
    design_complexity := pyTitle complexity }

/-- The differentiators list of `get_market_playbook` before de-duplication. -/
def market_differentiators_raw (t : MarketTemplate) (a : Attributes) : List String :=
  let differentiators := t.differentiators
  let differentiators := if a.marketplace then differentiators ++ ["Orchestrates dual-sided market dynamics with agent intelligence"] else differentiators
  let differentiators := if a.regulatory then differentiators ++ ["Compliance telemetry wired into every blueprint"] else differentiators
  differentiators

/-- The challenges list of `get_market_playbook` before de-duplication. -/
def market_challenges_raw (t : MarketTemplate) (a : Attributes) : List String :=
  if a.marketplace then t.challenges ++ ["Need to balance supply and demand narratives early"] else t.challenges

/-- The channels list of `get_market_playbook` before de-duplication. -/
def market_channels_raw (t : MarketTemplate) (a : Attributes) : List String :=
  let channels := t.channels
  let channels := if a.community then channels ++ ["Community-led roundtables and ambassador streams"] else channels
  let channels := if a.developer then channels ++ ["Open-source and developer relations campaigns"] else channels
  channels

/-- The personas list of `get_market_playbook` before de-duplication. -/
def market_personas_raw (t : MarketTemplate) (a : Attributes) : List String :=
  if a.developer then t.personas ++ ["Lead platform engineer"] else t.personas

/-- Result shape of `get_market_playbook`. -/
structure MarketPlaybook where
  segment : String
  competitors : List String
  differentiators : List String
  personas : List String
  marketing_channels : List String
  market_challenges : List String
  launch_strategy : String
  positioning_statement : String
  go_to_market_intent : String
deriving DecidableEq

/-- Embedding of `get_market_playbook` from agent_utils.py (the audience parameter is
accepted and unused, as in the source). -/
def get_market_playbook (domain _audience : String) (a : Attributes) (complexity : String) : MarketPlaybook :=
  let template := marketTemplateFor domain
  { segment := template.segment
    competitors := dedupFirst template.competitors
    differentiators := dedupFirst (market_differentiators_raw template a)
    personas := dedupFirst (market_personas_raw template a)
    marketing_channels := dedupFirst (market_channels_raw template a)
    market_challenges := dedupFirst (market_challenges_raw template a)
    launch_strategy := template.launch
    positioning_statement := template.positioning
    go_to_market_intent := pyTitle complexity }


/-- One phase of the timeline blueprint. -/
structure TimelinePhase where
  phase : String
  duration : String
  focus : String
  owner : String
  exit_criteria : String
deriving DecidableEq

/-- Result shape of `get_timeline_blueprint`. -/
structure TimelineBlueprint where
  phases : List TimelinePhase
  total_duration_weeks : Nat
  milestones : List String
  cadence_notes : String
deriving DecidableEq

/-- The fixed milestones list of `get_timeline_blueprint` before the
domain-note append. -/
def baseMilestones : List String :=
  ["Narrative blueprint approved by executive sponsor",
   "Pilot cohort signed with clear success metrics",
   "AI reliability benchmarks achieved (>95% consistency)",
   "Public launch with quantified customer stories"]

/-- Embedding of `get_timeline_blueprint` from agent_utils.py. The source subscripts
`TIMELINE_WINDOWS[complexity]` and `TIMELINE_TOTAL[complexity]`, which raises
`KeyError` for an unknown complexity; that partiality is embedded as `Option`,
with `none` for the raising case. -/
def get_timeline_blueprint (domain : String) (a : Attributes) (complexity : String) :
    Option TimelineBlueprint :=
  match TIMELINE_WINDOWS.lookup complexity, TIMELINE_TOTAL.lookup complexity with
  | some windows, some total_duration =>
    let domain_lower := pyLower domain
    let f0 := "Immerse with " ++ domain_lower ++ " experts, surface pains, and quantify opportunity"
    let f1 := "Design signature " ++ domain_lower ++ " experiences and validation flows"
    let f2 := "Build core services, harden data pipelines, and wire observability"
    let f3 := "Run closed pilots, harvest ROI metrics, and iterate narrative + pricing"
    let f4 := "Launch publicly, operationalise GTM motions, and ready scale infrastructure"
    let e0 := "Validated " ++ domain_lower ++ " opportunity map and success metrics"
    let e1 := "Experience prototypes tested with priority personas"
    let e2 := "Production-ready MVP with telemetry + governance"
    let e3 := "Pilot cohort delivering quantified wins"
    let e4 := "Launch scorecard and next-wave backlog approved"
    let f0 := if a.regulatory then f0 ++ "; capture compliance constraints and stakeholders" else f0
    let f2 := if a.regulatory then f2 ++ "; embed audit logging & access controls" else f2
    let e2 := if a.regulatory then e2 ++ " with compliance review sign-off" else e2
    let f1 := if a.marketplace then f1 ++ "; map supply-demand personas and incentives" else f1
    let f3 := if a.marketplace then f3 ++ "; balance both sides of the marketplace" else f3
    let e3 := if a.marketplace then e3 ++ " with dual-sided retention signals" else e3
    let f1 := if a.hardware then f1 ++ "; align hardware/IoT roadmap" else f1
    let f2 := if a.hardware then f2 ++ "; integrate edge device telemetry" else f2
    let f2 := if a.developer then f2 ++ "; expose APIs and CLI early" else f2
    let f4 := if a.developer then f4 ++ "; launch developer advocacy runway" else f4
    let notes := (TIMELINE_NOTES.lookup (resolve_category domain)).getD timelineNoteInnovation
    let phases := [
      { phase := "Discovery & Insight Sprint", duration := windows.getD 0 "",
        focus := f0, owner := "Product discovery lead", exit_criteria := e0 : TimelinePhase },
      { phase := "Experience Blueprinting", duration := windows.getD 1 "",
        focus := f1, owner := "Design + research squad", exit_criteria := e1 : TimelinePhase },
      { phase := "MVP Build & Instrumentation", duration := windows.getD 2 "",
        focus := f2, owner := "Engineering pod", exit_criteria := e2 : TimelinePhase },
      { phase := "Pilot & Iteration Loop", duration := windows.getD 3 "",
        focus := f3, owner := "Customer success & product marketing", exit_criteria := e3 : TimelinePhase },
      { phase := "Launch & Scale Enablement", duration := windows.getD 4 "",
        focus := f4, owner := "Founding leadership & revenue ops", exit_criteria := e4 : TimelinePhase }]
    let milestone_note := notes.milestone
    let milestones :=
      if milestone_note ≠ "" ∧ milestone_note ∉ baseMilestones
      then baseMilestones ++ [milestone_note] else baseMilestones
    let cadence_notes := pyTitle complexity ++ " cadence with emphasis on " ++ domain_lower
      ++ " risk mitigation and momentum. Launch focus: " ++ notes.launch
    some { phases := phases, total_duration_weeks := total_duration,
           milestones := milestones, cadence_notes := cadence_notes }
  | _, _ => none


/-- The external completion provider: a call that either returns message
content or fails (exception / unavailable), abstracted as a function of the
two prompts. -/
def Oracle : Type := String → String → Option String

/-- An LLM client: its provider tag and its `generate` behaviour. -/
structure LLM where
  provider : String
  generate : Oracle → String → String → String

/-- The deterministic template output at the end of `LLMClient.generate`. -/
def llmDefaultText (prompt : String) : String :=
  if pyStrip prompt ≠ "" then pyStrip prompt else "No additional insights available."

/-- Embedding of `LLMClient.generate` from core/deps.py: consult the provider when it is
"openai" with a configured client, stripping the message and falling back to
the deterministic template on failure; otherwise answer with the template.
The temperature and max-token arguments do not influence the modelled value
and are omitted. -/
def baseGenerate (provider : String) (hasClient : Bool) (oracle : Oracle)
    (system_prompt prompt : String) : String :=
  if provider = "openai" ∧ hasClient then
    match oracle system_prompt prompt with
    | some message => pyStrip message
    | none => llmDefaultText prompt
  else llmDefaultText prompt

/-- Embedding of `DeterministicLLMStub.generate` from core/deps.py: a pure template of the
two prompts; the oracle is never consulted. -/
def stubGenerate (_oracle : Oracle) (system_prompt prompt : String) : String :=
  let context := if pyStrip prompt = "" then "the provided concept" else pyStrip prompt
  let intent := if system_prompt ≠ "" then (pySplit '\n' system_prompt).headD ""
                else "General ideation guidance."
  "System Intent: " ++ intent ++ "\nInsight: Focus on " ++ context ++ "."

/-- Embedding of `DeterministicLLMStub` from core/deps.py. -/
def DeterministicLLMStub : LLM :=
  { provider := "stub", generate := stubGenerate }

/-- Python bool repr. -/
def pyBool (b : Bool) : String := if b then "True" else "False"

/-- Python string repr without escape refinement (single quotes around the
text); only ever fed to the oracle as prompt text. -/
def pyStrRepr (s : String) : String := "\x27" ++ s ++ "\x27"

/-- Python list-of-strings repr. -/
def pyListRepr (l : List String) : String :=
  "[" ++ pyJoin ", " (l.map pyStrRepr) ++ "]"

/-- Python repr of the attributes dict, in insertion order. -/
def attrsRepr (a : Attributes) : String :=
  "\x7b\x27regulatory\x27: " ++ pyBool a.regulatory
    ++ ", \x27marketplace\x27: " ++ pyBool a.marketplace
    ++ ", \x27hardware\x27: " ++ pyBool a.hardware
    ++ ", \x27realtime\x27: " ++ pyBool a.realtime
    ++ ", \x27data_heavy\x27: " ++ pyBool a.data_heavy
    ++ ", \x27mobile\x27: " ++ pyBool a.mobile
    ++ ", \x27enterprise\x27: " ++ pyBool a.enterprise
    ++ ", \x27community\x27: " ++ pyBool a.community
    ++ ", \x27developer\x27: " ++ pyBool a.developer
    ++ ", \x27ai_native\x27: " ++ pyBool a.ai_native ++ "\x7d"

/-- Result shape of `IdeaAgent.run`: the feature bundle. -/
structure IdeaBundle where
  problem : String
  solution : String
  target_audience : String
  domain : String
  keywords : List String
  value_propositions : List String
  success_metrics : List String
  attributes : Attributes
  execution_complexity : String
  top_opportunities : List String
  attribute_highlights : List String
  narrative : String
deriving DecidableEq

/-- Python dict repr of an idea bundle, keys in the source result order. -/
def ideaBundleRepr (b : IdeaBundle) : String :=
  "\x7b\x27problem\x27: " ++ pyStrRepr b.problem
    ++ ", \x27solution\x27: " ++ pyStrRepr b.solution
    ++ ", \x27target_audience\x27: " ++ pyStrRepr b.target_audience
    ++ ", \x27domain\x27: " ++ pyStrRepr b.domain
    ++ ", \x27keywords\x27: " ++ pyListRepr b.keywords
    ++ ", \x27value_propositions\x27: " ++ pyListRepr b.value_propositions
    ++ ", \x27success_metrics\x27: " ++ pyListRepr b.success_metrics
    ++ ", \x27attributes\x27: " ++ attrsRepr b.attributes
    ++ ", \x27execution_complexity\x27: " ++ pyStrRepr b.execution_complexity
    ++ ", \x27top_opportunities\x27: " ++ pyListRepr b.top_opportunities
    ++ ", \x27attribute_highlights\x27: " ++ pyListRepr b.attribute_highlights
    ++ ", \x27narrative\x27: " ++ pyStrRepr b.narrative ++ "\x7d"

/-- The canned placeholder idea substituted for empty input in `IdeaAgent.run`. -/
def placeholderIdea : String :=
  "An AI copilot that turns founder vision statements into validated product roadmaps."

/-- Embedding of `IdeaAgent._select_problem`. -/
def select_problem (sentences : List String) : String :=
  match sentences.find? (fun s =>
      ["problem", "struggle", "pain", "friction", "challenge"].any
        (fun token => containsSub (pyLower s) token)) with
  | some s => s
  | none => sentences.headD "Founders need a sharper way to translate ideas into products."

/-- Embedding of `IdeaAgent._select_solution`. -/
def select_solution (sentences : List String) (fallback : String) : String :=
  match sentences.find? (fun s =>
      ["solution", "platform", "tool", "product", "service", "assistant"].any
        (fun token => containsSub (pyLower s) token)) with
  | some s => s
  | none => fallback

/-- Embedding of `extract_keywords` from agent_utils.py: regex tokens, stopword and length
filter, Counter.most_common ranking (count descending, stable for ties, so
first occurrence wins), top `limit`, with a fixed fallback pair. -/
def extract_keywords (text : String) (limit : Nat) : List String :=
  let words := (findTokensAux [] (pyLower text).toList).map (fun cs => String.mk cs)
  let filtered := words.filter (fun w => !(STOPWORDS.contains w) && decide (w.length > 2))
  let ranked := sortByCountDesc ((dedupFirst filtered).map (fun w => (w, filtered.count w)))
  let keywords := (ranked.take limit).map (fun p => p.1)
  if keywords = [] then ["innovation", "blueprint"] else keywords

/-- The body of `IdeaAgent.run` on the (already defaulted) idea text. -/
def ideaRunCore (llm : LLM) (oracle : Oracle) (idea : String) : IdeaBundle :=
  let sentences := tokenize_sentences idea
  let problem := select_problem sentences
  let llm_hint := if llm.provider ≠ "stub"
    then llm.generate oracle "Extract a crisp solution phrase for the concept." idea else ""
  let solution_hint := if llm_hint = ""
    then "The platform orchestrates expert agents to translate founder intent into a validated blueprint."
    else llm_hint
  let solution := select_solution sentences solution_hint
  let domain := infer_domain idea
  let audience := infer_audience idea
  let keywords := extract_keywords idea 10
  let value_props := craft_value_props domain audience
  let success_metrics := derive_success_metrics domain
  let attributes := detect_attributes idea
  let complexity := assess_complexity idea attributes
  let attribute_highlights := (activeAttrNames attributes).map
    (fun label => pyTitle (pyReplace label "_" " "))
  let top_opportunities := (keywords.take 3).map (fun kw =>
    domain ++ " opportunity: unlock " ++ (pyReplace kw "-" " ") ++ " leverage for " ++ pyLower audience)
  let narrative := if llm.provider ≠ "stub"
    then llm.generate oracle
      "Craft a bold two-sentence product narrative emphasising problem-solution fit and audience impact."
      ("Problem: " ++ problem ++ "\nSolution: " ++ solution ++ "\nAudience: " ++ audience
        ++ "\nDomain: " ++ domain ++ "\nComplexity: " ++ complexity)
    else ""
  let narrative := if narrative = ""
    then "Akcero refines the " ++ pyLower domain ++ " challenge of \"" ++ problem
      ++ "\" into a blueprint that empowers " ++ pyLower audience
      ++ " with a differentiated, agent-powered solution."
    else narrative
  { problem := problem, solution := solution, target_audience := audience, domain := domain,
    keywords := keywords, value_propositions := value_props, success_metrics := success_metrics,
    attributes := attributes, execution_complexity := complexity,
    top_opportunities := top_opportunities, attribute_highlights := attribute_highlights,
    narrative := pyStrip narrative }

/-- Embedding of `IdeaAgent.run`: strip the idea field, replace empty input with the canned
placeholder, then process. -/
def ideaRun (llm : LLM) (oracle : Oracle) (ideaField : Option String) : IdeaBundle :=
  let idea := pyStrip (ideaField.getD "")
  ideaRunCore llm oracle (if idea = "" then placeholderIdea else idea)

/-- Embedding of `idea_context.get("domain") or fallback` (missing context or empty string
falls back). -/
def ctx_domain (ctx : Option IdeaBundle) (fallback : String) : String :=
  orElseStr (ctx.map (fun b => b.domain)) fallback

/-- Embedding of `idea_context.get("target_audience") or fallback`. -/
def ctx_audience (ctx : Option IdeaBundle) (fallback : String) : String :=
  orElseStr (ctx.map (fun b => b.target_audience)) fallback

/-- Embedding of `idea_context.get("execution_complexity") or fallback`. -/
def ctx_complexity (ctx : Option IdeaBundle) (fallback : String) : String :=
  orElseStr (ctx.map (fun b => b.execution_complexity)) fallback

/-- Embedding of `idea_context.get("attributes") or fallback`: the attributes dict always
has its ten keys, hence is always truthy when the context is present. -/
def ctx_attributes (ctx : Option IdeaBundle) (fallback : Attributes) : Attributes :=
  match ctx with
  | some b => b.attributes
  | none => fallback


/-- Embedding of `BusinessAgent._detect_model`. -/
def detect_model (text : String) : String :=
  let lowered := pyLower text
  if ["marketplace", "network", "two-sided"].any (fun k => containsSub lowered k) then
    "Marketplace commissions with premium workflow subscriptions"
  else if containsSub lowered "api" || containsSub lowered "developer" then
    "Usage-based API platform augmented with enterprise plans"
  else if containsSub lowered "mobile" || containsSub lowered "app" then
    "Freemium mobile experience with pro subscription unlocks"
  else if containsSub lowered "consulting" || containsSub lowered "services" then
    "Hybrid subscription plus expert services retainer"
  else if containsSub lowered "hardware" || containsSub lowered "iot" then
    "Hardware-enabled subscription with device leasing"
  else "Tiered SaaS subscription with outcome-based add-ons"

/-- Embedding of `BusinessAgent._pricing_strategy`. -/
def pricing_strategy_hint (text : String) : String :=
  let lowered := pyLower text
  if containsSub lowered "enterprise" then
    "Enterprise annual agreements anchored to ROI milestones"
  else if containsSub lowered "startup" || containsSub lowered "founder" then
    "Founders-first pricing: free discovery tier, $249/mo accelerator tier"
  else if containsSub lowered "marketplace" then
    "1.9% transaction fee plus $99/mo curated vendor spotlight"
  else "Layered pricing mixing usage meters with collaborative seats"

/-- Result shape of `BusinessAgent.run` (the playbook with the expansion
strategy re-inserted and monetisation notes added). -/
structure BusinessOutput where
  model : String
  pricing_strategy : String
  revenue_streams : List String
  go_to_market : String
  partners : List String
  key_metrics : List String
  sales_enablement : List String
  complexity_profile : String
  expansion_strategy : String
  monetisation_notes : String
deriving DecidableEq

/-- Embedding of `BusinessAgent.run`. The sole list subscript `revenue_streams[0]` is
embedded with a default, as the catalog guarantees a non-empty list. -/
def businessRun (llm : LLM) (oracle : Oracle) (ideaField : Option String)
    (ctx : Option IdeaBundle) : BusinessOutput :=
  let idea_text := pyStrip (ideaField.getD "")
  let domain := ctx_domain ctx (infer_domain idea_text)
  let audience := ctx_audience ctx (infer_audience idea_text)
  let attributes := ctx_attributes ctx (detect_attributes idea_text)
  let complexity := ctx_complexity ctx (assess_complexity idea_text attributes)
  let model := detect_model idea_text
  let playbook := get_business_playbook domain audience attributes complexity (some model)
  let pricing_hint := pricing_strategy_hint idea_text
  let pricing_strategy :=
    if pricing_hint ≠ "" ∧ ¬ containsSub (pyLower playbook.pricing_strategy) (pyLower pricing_hint)
    then playbook.pricing_strategy ++ ". " ++ pricing_hint ++ "."
    else playbook.pricing_strategy
  let expansion_strategy := playbook.expansion_strategy
  let expansion_strategy :=
    if llm.provider ≠ "stub" then
      let llm_expansion := pyStrip (llm.generate oracle
        "Craft a crisp expansion narrative (2 sentences) that highlights scale opportunities and risk controls."
        ("Domain: " ++ domain ++ "\nAudience: " ++ audience ++ "\nModel: " ++ playbook.model
          ++ "\nGTM: " ++ playbook.go_to_market ++ "\nComplexity: " ++ complexity))
      if llm_expansion ≠ "" then llm_expansion else expansion_strategy
    else expansion_strategy
  let monetisation_notes := "Lead with " ++ playbook.revenue_streams.headD ""
    ++ " while layering "
    ++ (if playbook.revenue_streams.length > 1 then playbook.revenue_streams.getD 1 ""
        else "scalable add-ons")
    ++ " to reinforce predictable ARR."
  { model := playbook.model, pricing_strategy := pricing_strategy,
    revenue_streams := playbook.revenue_streams, go_to_market := playbook.go_to_market,
    partners := playbook.partners, key_metrics := playbook.key_metrics,
    sales_enablement := playbook.sales_enablement,
    complexity_profile := playbook.complexity_profile,
    expansion_strategy := expansion_strategy, monetisation_notes := monetisation_notes }

/-- Python dict repr of a business output, keys in the source result order. -/
def businessOutputRepr (b : BusinessOutput) : String :=
  "\x7b\x27model\x27: " ++ pyStrRepr b.model
    ++ ", \x27pricing_strategy\x27: " ++ pyStrRepr b.pricing_strategy
    ++ ", \x27revenue_streams\x27: " ++ pyListRepr b.revenue_streams
    ++ ", \x27go_to_market\x27: " ++ pyStrRepr b.go_to_market
    ++ ", \x27partners\x27: " ++ pyListRepr b.partners
    ++ ", \x27key_metrics\x27: " ++ pyListRepr b.key_metrics
    ++ ", \x27sales_enablement\x27: " ++ pyListRepr b.sales_enablement
    ++ ", \x27complexity_profile\x27: " ++ pyStrRepr b.complexity_profile
    ++ ", \x27expansion_strategy\x27: " ++ pyStrRepr b.expansion_strategy
    ++ ", \x27monetisation_notes\x27: " ++ pyStrRepr b.monetisation_notes ++ "\x7d"

/-- Result shape of `TechAgent.run`. -/
structure TechOutput where
  architecture : String
  stack : List String
  ai_components : List String
  service_components : List String
  data_strategy : String
  devops : List String
  integration_points : List String
  resilience_notes : String
  scalability : String
deriving DecidableEq

/-- Embedding of `TechAgent.run`. -/
def techRun (llm : LLM) (oracle : Oracle) (ideaField : Option String)
    (ctx : Option IdeaBundle) : TechOutput :=
  let idea_text := pyStrip (ideaField.getD "")
  let domain := ctx_domain ctx (infer_domain idea_text)
  let attributes := ctx_attributes ctx (detect_attributes idea_text)
  let complexity := ctx_complexity ctx (assess_complexity idea_text attributes)
  let playbook := get_tech_playbook domain attributes complexity
  let architecture_summary := playbook.architecture
  let resilience_notes := playbook.resilience_notes
  let architecture_summary :=
    if llm.provider ≠ "stub" then
      let v := pyStrip (llm.generate oracle
        "Summarise the architecture in one vivid sentence that emphasises reliability and extensibility."
        ("Architecture: " ++ architecture_summary
          ++ "\nStack: " ++ pyJoin ", " playbook.stack
          ++ "\nAI: " ++ pyJoin ", " playbook.ai_components
          ++ "\nDomain: " ++ domain ++ "\nComplexity: " ++ complexity))
      if v ≠ "" then v else architecture_summary
    else architecture_summary
  let resilience_notes :=
    if llm.provider ≠ "stub" then
      let v := pyStrip (llm.generate oracle
        "Provide one sentence on reliability and risk mitigation priorities for this architecture."
        ("Domain: " ++ domain ++ "\nComplexity: " ++ complexity
          ++ "\nAttributes: " ++ attrsRepr attributes
          ++ "\nCurrent notes: " ++ resilience_notes))
      if v ≠ "" then v else resilience_notes
    else resilience_notes
  let scalability := pyTitle complexity ++ " delivery cadence with guardrails for "
    ++ (pyLower (resolve_category domain)) ++ " workloads."
  { architecture := architecture_summary, stack := playbook.stack,
    ai_components := playbook.ai_components, service_components := playbook.service_components,
    data_strategy := playbook.data_strategy, devops := playbook.devops,
    integration_points := playbook.integration_points,
    resilience_notes := resilience_notes, scalability := scalability }

/-- Python dict repr of a tech output, keys in the source result order. -/
def techOutputRepr (t : TechOutput) : String :=
  "\x7b\x27architecture\x27: " ++ pyStrRepr t.architecture
    ++ ", \x27stack\x27: " ++ pyListRepr t.stack
    ++ ", \x27ai_components\x27: " ++ pyListRepr t.ai_components
    ++ ", \x27service_components\x27: " ++ pyListRepr t.service_components
    ++ ", \x27data_strategy\x27: " ++ pyStrRepr t.data_strategy
    ++ ", \x27devops\x27: " ++ pyListRepr t.devops
    ++ ", \x27integration_points\x27: " ++ pyListRepr t.integration_points
    ++ ", \x27resilience_notes\x27: " ++ pyStrRepr t.resilience_notes
    ++ ", \x27scalability\x27: " ++ pyStrRepr t.scalability ++ "\x7d"

/-- Result shape of `DesignAgent.run`. -/
structure DesignOutput where
  experience_principles : List String
  key_screens : List String
  interaction_patterns : List String
  brand_voice : String
  visual_language : String
  content_tone : String
  design_complexity : String
  inspiration_references : String
deriving DecidableEq

/-- Embedding of `DesignAgent.run`. -/
def designRun (llm : LLM) (oracle : Oracle) (ideaField : Option String)
    (ctx : Option IdeaBundle) : DesignOutput :=
  let idea_text := pyStrip (ideaField.getD "")
  let domain := ctx_domain ctx (infer_domain idea_text)
  let audience := ctx_audience ctx (infer_audience idea_text)
  let attributes := ctx_attributes ctx (detect_attributes idea_text)
  let complexity := ctx_complexity ctx (assess_complexity idea_text attributes)
  let palette := get_design_palette domain audience attributes complexity
  let inspiration := "Blend Akcero\x27s luminous minimalism with proven patterns from category-defining "
    ++ pyLower domain ++ " products and high-trust productivity tools."
  let inspiration :=
    if llm.provider ≠ "stub" then
      let v := pyStrip (llm.generate oracle
        "Suggest design inspiration references (1 sentence) mixing product and brand cues."
        ("Domain: " ++ domain ++ "\nAudience: " ++ audience
          ++ "\nPrinciples: " ++ pyListRepr palette.experience_principles
          ++ "\nAttributes: " ++ attrsRepr attributes))
      if v ≠ "" then v else inspiration
    else inspiration
  { experience_principles := palette.experience_principles,
    key_screens := palette.key_screens,
    interaction_patterns := palette.interaction_patterns,
    brand_voice := palette.brand_voice, visual_language := palette.visual_language,
    content_tone := palette.content_tone, design_complexity := palette.design_complexity,
    inspiration_references := inspiration }

/-- Result shape of `MarketAgent.run`. -/
structure MarketOutput where
  segment : String
  competitors : List String
  differentiators : List String
  personas : List String
  marketing_channels : List String
  market_challenges : List String
  launch_strategy : String
  positioning_statement : String
  go_to_market_intent : String
  momentum_notes : String
deriving DecidableEq

/-- Embedding of `MarketAgent.run`: note the fallbacks run on the lowered idea text. -/
def marketRun (llm : LLM) (oracle : Oracle) (ideaField : Option String)
    (ctx : Option IdeaBundle) : MarketOutput :=
  let idea_text := pyStrip (ideaField.getD "")
  let domain := ctx_domain ctx (infer_domain (pyLower idea_text))
  let audience := ctx_audience ctx (infer_audience (pyLower idea_text))
  let attributes := ctx_attributes ctx (detect_attributes (pyLower idea_text))
  let complexity := ctx_complexity ctx (assess_complexity (pyLower idea_text) attributes)
  let playbook := get_market_playbook domain audience attributes complexity
  let positioning := playbook.positioning_statement
  let positioning :=
    if llm.provider ≠ "stub" then
      let v := pyStrip (llm.generate oracle
        "Write a crisp positioning statement (1 sentence) naming the wedge and momentum."
        ("Idea: " ++ idea_text ++ "\nDomain: " ++ domain ++ "\nAudience: " ++ audience
          ++ "\nDifferentiators: " ++ pyListRepr playbook.differentiators))
      if v ≠ "" then v else positioning
    else positioning
  let momentum := "Near-term focus: secure lighthouse design partners, publish quantified wins, and capture narrative authority."
  let momentum :=
    if llm.provider ≠ "stub" then
      let v := pyStrip (llm.generate oracle
        "Provide a momentum insight (1 sentence) highlighting urgency and proof loops."
        ("Segment: " ++ playbook.segment
          ++ "\nChallenges: " ++ pyListRepr playbook.market_challenges
          ++ "\nChannels: " ++ pyListRepr playbook.marketing_channels))
      if v ≠ "" then v else momentum
    else momentum
  { segment := playbook.segment, competitors := playbook.competitors,
    differentiators := playbook.differentiators, personas := playbook.personas,
    marketing_channels := playbook.marketing_channels,
    market_challenges := playbook.market_challenges,
    launch_strategy := playbook.launch_strategy,
    positioning_statement := positioning,
    go_to_market_intent := playbook.go_to_market_intent,
    momentum_notes := momentum }

/-- Result shape of `TimelineAgent.run`. -/
structure TimelineOutput where
  phases : List TimelinePhase
  total_duration_weeks : Nat
  milestones : List String
  cadence_notes : String
  risk_watchlist : String
  business_alignment : String
  tech_alignment : String
deriving DecidableEq

/-- Python repr of an optional idea context (`payload.get(...) or {}`). -/
def ideaCtxRepr (ctx : Option IdeaBundle) : String :=
  match ctx with
  | some b => ideaBundleRepr b
  | none => "\x7b\x7d"

/-- Python repr of an optional business context. -/
def businessCtxRepr (ctx : Option BusinessOutput) : String :=
  match ctx with
  | some b => businessOutputRepr b
  | none => "\x7b\x7d"

/-- Python repr of an optional tech context. -/
def techCtxRepr (ctx : Option TechOutput) : String :=
  match ctx with
  | some t => techOutputRepr t
  | none => "\x7b\x7d"

/-- Embedding of `TimelineAgent.run`: fallbacks run on the lowered idea text; the
`get_timeline_blueprint` KeyError case propagates as `none`. -/
def timelineRun (llm : LLM) (oracle : Oracle) (ideaField : Option String)
    (ctx : Option IdeaBundle) (business_context : Option BusinessOutput)
    (tech_context : Option TechOutput) : Option TimelineOutput :=
  let idea_text := pyStrip (ideaField.getD "")
  let domain := ctx_domain ctx (infer_domain (pyLower idea_text))
  let attributes := ctx_attributes ctx (detect_attributes (pyLower idea_text))
  let complexity := ctx_complexity ctx (assess_complexity (pyLower idea_text) attributes)
  match get_timeline_blueprint domain attributes complexity with
  | none => none
  | some timeline =>
    let risk_notes := "Monitor scope creep, data readiness, and stakeholder engagement across the orchestration."
    let risk_notes :=
      if llm.provider ≠ "stub" then
        let v := pyStrip (llm.generate oracle
          "List the top risk or contingency to watch (1 sentence)."
          ("Idea context: " ++ ideaCtxRepr ctx
            ++ "\nBusiness: " ++ businessCtxRepr business_context
            ++ "\nTech: " ++ techCtxRepr tech_context
            ++ "\nAttributes: " ++ attrsRepr attributes))
        if v ≠ "" then v else risk_notes
      else risk_notes
    some { phases := timeline.phases,
           total_duration_weeks := timeline.total_duration_weeks,
           milestones := timeline.milestones,
           cadence_notes := timeline.cadence_notes,
           risk_watchlist := risk_notes,
           business_alignment := (business_context.map (fun b => b.model)).getD "Model TBD",
           tech_alignment := (tech_context.map (fun t => t.architecture)).getD "Architecture TBD" }

/-- Embedding of `UmbrellaAgent.run_agent` from core/umbrella_agent.py: notify the optional
progress callback with "running", invoke the agent, notify "completed", and
return the result. A callback exception is embedded as `Except.error`, which
short-circuits exactly as Python exception propagation does (there is no
try/except in the source). -/
def run_agent {P R E : Type} (name : String) (agent_callable : P → R) (payload : P)
    (callback : Option (String → String → Except E Unit)) : Except E R :=
  match callback with
  | none => Except.ok (agent_callable payload)
  | some cb =>
    match cb name "running" with
    | Except.error e => Except.error e
    | Except.ok _ =>
      let result := agent_callable payload
      match cb name "completed" with
      | Except.error e => Except.error e
      | Except.ok _ => Except.ok result


/-- A heap of Python list objects: cell index is object identity. The list
fields of a shared catalog record live in such cells; `list(...)` copies a
cell, `.append` mutates one in place. -/
abbrev Store : Type := List (List String)

/-- Dereference a list cell. -/
def readRef (st : Store) (r : Nat) : List String :=
  st.getD r []

/-- Overwrite a list cell. -/
def writeRef (st : Store) (r : Nat) (v : List String) : Store :=
  st.set r v

/-- Embedding of `list(xs)`: allocate a fresh cell holding a copy of the value. -/
def allocRef (st : Store) (v : List String) : Store × Nat :=
  (st ++ [v], st.length)

/-- Embedding of `.append(x)` on a list object: mutate the cell in place. -/
def appendRef (st : Store) (r : Nat) (x : String) : Store :=
  writeRef st r (readRef st r ++ [x])

/-- A business template record whose list fields are references into the
shared store (the module-level catalog data). -/
structure BusinessTemplateRefs where
  model : String
  pricing : String
  revenue : Nat
  gtm : String
  partners : Nat
  key_metrics : Nat
  enablement : Nat
  expansion : String

/-- The attribute-conditioned appends of `get_business_playbook`, acting on
the four freshly copied cells, in source order. -/
def businessAugment (st : Store) (revenueR partnersR keyMetricsR enablementR : Nat)
    (a : Attributes) : Store :=
  let st := if a.marketplace then appendRef st revenueR "Curated marketplace commissions and vendor sponsorships" else st
  let st := if a.developer then appendRef st revenueR "Usage-based API tier with premium tooling bundles" else st
  let st := if a.developer then appendRef st enablementR "Developer-first documentation and SDK launch kit" else st
  let st := if a.community then appendRef st revenueR "Community membership and certification programs" else st
  let st := if a.regulatory then appendRef st keyMetricsR "Regulatory milestone velocity" else st
  let st := if a.enterprise then appendRef st partnersR "Enterprise enablement consultancies" else st
  let st := if a.enterprise then appendRef st enablementR "Executive risk mitigation narrative" else st
  st

/-- Heap-level embedding of `get_business_playbook`: the list fields of the
shared record are copied into fresh cells (`list(template[...])`) before any
append, and the result reads only the fresh cells. -/
def get_business_playbook_heap (st : Store) (t : BusinessTemplateRefs)
    (domain audience : String) (a : Attributes) (complexity : String)
    (base_model : Option String) : BusinessPlaybook × Store :=
  let p1 := allocRef st (readRef st t.revenue)
  let p2 := allocRef p1.1 (readRef p1.1 t.partners)
  let p3 := allocRef p2.1 (readRef p2.1 t.key_metrics)
  let p4 := allocRef p3.1 (readRef p3.1 t.enablement)
  let st4 := p4.1
  let pricing_strategy := t.pricing
  let model := orElseStr base_model t.model
  let bm := base_model.getD ""
  let model := if bm ≠ "" ∧ ¬ containsSub (pyLower t.model) (pyLower bm)
               then bm ++ " | " ++ t.model else model
  let go_to_market := pyReplace (pyReplace t.gtm "{audience}" audience) "{domain}" (pyLower domain)
  let go_to_market := if a.marketplace then go_to_market ++ " Recruit a dual-sided design partner cohort to validate supply-demand resonance." else go_to_market
  let go_to_market := if a.community then go_to_market ++ " Launch ambassador-driven community drops and co-creation labs." else go_to_market
  let pricing_strategy := if a.regulatory then pricing_strategy ++ " Include compliance assurance fees for bespoke reviews." else pricing_strategy
  let st' := businessAugment st4 p1.2 p2.2 p3.2 p4.2 a
  ({ model := model
     pricing_strategy := pricing_strategy
     revenue_streams := dedupFirst (readRef st' p1.2)
     go_to_market := go_to_market
     partners := dedupFirst (readRef st' p2.2)
     key_metrics := dedupFirst (readRef st' p3.2)
     sales_enablement := dedupFirst (readRef st' p4.2)
     expansion_strategy := t.expansion
     complexity_profile := pyTitle complexity }, st')

/-- A tech template record whose list fields are store references. -/
structure TechTemplateRefs where
  architecture : String
  stack : Nat
  ai : Nat
  service : Nat
  data : String
  devops : Nat
  integration : Nat

/-- The attribute-conditioned appends of `get_tech_playbook` on the freshly
copied cells, in source order; the mobile guard reads the current stack cell. -/
def techAugment (st : Store) (stackR aiR serviceR devopsR integrationR : Nat)
    (a : Attributes) : Store :=
  let st := if a.realtime then appendRef st stackR "Event streaming backbone (Kafka / Pulsar)" else st
  let st := if a.realtime then appendRef st aiR "Real-time signal prioritisation agent" else st
  let st := if a.marketplace then appendRef st serviceR "Supply-demand matching engine" else st
  let st := if a.marketplace then appendRef st aiR "Marketplace liquidity forecaster" else st
  let st := if a.hardware then appendRef st stackR "IoT ingestion via MQTT/Greengrass" else st
  let st := if a.hardware then appendRef st serviceR "Edge device fleet manager" else st
  let st := if a.mobile && (readRef st stackR).all (fun item => !(containsSub item "React Native"))
            then appendRef st stackR "React Native / Expo mobile shell" else st
  let st := if a.developer then appendRef st integrationR "CLI and SDK distribution pipeline" else st
  let st := if a.developer then appendRef st devopsR "Developer sandbox orchestration" else st
  let st := if a.enterprise then appendRef st devopsR "Policy-as-code with Conftest / OPA" else st
  st

/-- Heap-level embedding of `get_tech_playbook`. -/
def get_tech_playbook_heap (st : Store) (t : TechTemplateRefs) (domain : String)
    (a : Attributes) (complexity : String) : TechPlaybook × Store :=
  let p1 := allocRef st (readRef st t.stack)
  let p2 := allocRef p1.1 (readRef p1.1 t.ai)
  let p3 := allocRef p2.1 (readRef p2.1 t.service)
  let p4 := allocRef p3.1 (readRef p3.1 t.devops)
  let p5 := allocRef p4.1 (readRef p4.1 t.integration)
  let st' := techAugment p5.1 p1.2 p2.2 p3.2 p4.2 p5.2 a
  ({ architecture := t.architecture
     stack := dedupFirst (readRef st' p1.2)
     ai_components := dedupFirst (readRef st' p2.2)
     service_components := dedupFirst (readRef st' p3.2)
     data_strategy := t.data
     devops := dedupFirst (readRef st' p4.2)
     integration_points := dedupFirst (readRef st' p5.2)
     resilience_notes := pyTitle complexity ++ " delivery profile with guardrails for "
       ++ (pyLower (resolve_category domain)) ++ " workloads." }, st')

/-- A design template record whose list fields are store references. -/
structure DesignTemplateRefs where
  principles : Nat
  key_screens : Nat
  interaction : Nat
  voice : String
  visual : String
  tone : String

/-- The attribute-conditioned appends of `get_design_palette` on the freshly
copied cells, in source order. -/
def designAugment (st : Store) (principlesR keyScreensR interactionR : Nat)
    (a : Attributes) : Store :=
  let st := if a.developer then appendRef st interactionR "Keyboard-first power commands" else st
  let st := if a.developer then appendRef st principlesR "Expose system status for advanced users" else st
  let st := if a.regulatory then appendRef st principlesR "Surface compliance guardrails contextually" else st
  let st := if a.regulatory then appendRef st interactionR "Audit-ready export flows" else st
  let st := if a.marketplace then appendRef st keyScreensR "Supply & demand orchestration board" else st
  let st := if a.community then appendRef st keyScreensR "Community pulse and ambassador missions" else st
  st

/-- Heap-level embedding of `get_design_palette`: the three catalog lists are
copied into fresh cells (`list(template[...])`) before any append. -/
def get_design_palette_heap (st : Store) (t : DesignTemplateRefs)
    (audience : String) (a : Attributes) (complexity : String) : DesignPalette × Store :=
  let p1 := allocRef st (readRef st t.principles)
  let p2 := allocRef p1.1 (readRef p1.1 t.key_screens)
  let p3 := allocRef p2.1 (readRef p2.1 t.interaction)
  let brand_voice := t.voice
  let tone := t.tone
  let brand_voice := if containsSub audience "Enterprise" then brand_voice ++ " with executive polish" else brand_voice
  let tone := if containsSub audience "Enterprise" then tone ++ ". Always tie outcomes to strategic imperatives." else tone
  let st' := designAugment p3.1 p1.2 p2.2 p3.2 a
  ({ experience_principles := dedupFirst (readRef st' p1.2)
     key_screens := dedupFirst (readRef st' p2.2)
     interaction_patterns := dedupFirst (readRef st' p3.2)
     brand_voice := brand_voice
     visual_language := t.visual
     content_tone := tone
     design_complexity := pyTitle complexity }, st')

/-- A market template record whose list fields are store references. -/
structure MarketTemplateRefs where
  segment : String
  competitors : Nat
  differentiators : Nat
  personas : Nat
  channels : Nat
  challenges : Nat
  positioning : String
  launch : String

/-- The attribute-conditioned appends of `get_market_playbook` on the freshly
copied cells, in source order (the competitors copy is never appended to). -/
def marketAugment (st : Store) (differentiatorsR personasR channelsR challengesR : Nat)
    (a : Attributes) : Store :=
  let st := if a.marketplace then appendRef st differentiatorsR "Orchestrates dual-sided market dynamics with agent intelligence" else st
  let st := if a.marketplace then appendRef st challengesR "Need to balance supply and demand narratives early" else st
  let st := if a.regulatory then appendRef st differentiatorsR "Compliance telemetry wired into every blueprint" else st
  let st := if a.community then appendRef st channelsR "Community-led roundtables and ambassador streams" else st
  let st := if a.developer then appendRef st personasR "Lead platform engineer" else st
  let st := if a.developer then appendRef st channelsR "Open-source and developer relations campaigns" else st
  st

/-- Heap-level embedding of `get_market_playbook`: the five catalog lists are
copied into fresh cells before any append. -/
def get_market_playbook_heap (st : Store) (t : MarketTemplateRefs)
    (a : Attributes) (complexity : String) : MarketPlaybook × Store :=
  let p1 := allocRef st (readRef st t.competitors)
  let p2 := allocRef p1.1 (readRef p1.1 t.differentiators)
  let p3 := allocRef p2.1 (readRef p2.1 t.personas)
  let p4 := allocRef p3.1 (readRef p3.1 t.channels)
  let p5 := allocRef p4.1 (readRef p4.1 t.challenges)
  let st' := marketAugment p5.1 p2.2 p3.2 p4.2 p5.2 a
  ({ segment := t.segment
     competitors := dedupFirst (readRef st' p1.2)
     differentiators := dedupFirst (readRef st' p2.2)
     personas := dedupFirst (readRef st' p3.2)
     marketing_channels := dedupFirst (readRef st' p4.2)
     market_challenges := dedupFirst (readRef st' p5.2)
     launch_strategy := t.launch
     positioning_statement := t.positioning
     go_to_market_intent := pyTitle complexity }, st')


section Claims

/-- Conditional increment commutes out of an if on a decidable proposition. -/
theorem score_step (s w : Nat) (c : Prop) [Decidable c] :
    (if c then s + w else s) = s + (if c then w else 0) := by
  by_cases h : c <;> simp [h]

/-- Mapping an equal score through the three-tier cut yields equal tiers. -/
theorem tier_congr {s t : Nat} (h : s = t) :
    (if s ≥ 6 then "complex" else if s ≥ 3 then "standard" else "lean")
      = (if t ≥ 6 then "complex" else if t ≥ 3 then "standard" else "lean") := by
  rw [h]

theorem weightOf_regulatory : weightOf "regulatory" = 2 := rfl
theorem weightOf_marketplace : weightOf "marketplace" = 2 := rfl
theorem weightOf_hardware : weightOf "hardware" = 2 := rfl
theorem weightOf_realtime : weightOf "realtime" = 1 := rfl
theorem weightOf_data_heavy : weightOf "data_heavy" = 1 := rfl
theorem weightOf_mobile : weightOf "mobile" = 1 := rfl
theorem weightOf_enterprise : weightOf "enterprise" = 1 := rfl
theorem weightOf_community : weightOf "community" = 1 := rfl
theorem weightOf_developer : weightOf "developer" = 1 := rfl
theorem weightOf_ai_native : weightOf "ai_native" = 1 := rfl

/-- The complexity rule exactly as the spec words it: start at 1, add the
fixed per-attribute weight of each active attribute (2 for regulatory,
marketplace and hardware; 1 for the rest, including the defaulted ai_native),
add 1 for word count over 140 and another over 220, add 1 when regulatory and
marketplace are both active, then cut at 6 and 3. -/
def spec_complexity (text : String) (a : Attributes) : Nat × String :=
  let score := 1
    + (if a.regulatory then 2 else 0)
    + (if a.marketplace then 2 else 0)
    + (if a.hardware then 2 else 0)
    + (if a.realtime then 1 else 0)
    + (if a.data_heavy then 1 else 0)
    + (if a.mobile then 1 else 0)
    + (if a.enterprise then 1 else 0)
    + (if a.community then 1 else 0)
    + (if a.developer then 1 else 0)
    + (if a.ai_native then 1 else 0)
    + (if wordCount text > 140 then 1 else 0)
    + (if wordCount text > 220 then 1 else 0)
    + (if a.regulatory && a.marketplace then 1 else 0)
  (score, if score ≥ 6 then "complex" else if score ≥ 3 then "standard" else "lean")

/-- C1: for every input text and attribute map, the complexity assessment of
the code computes exactly the spec formula: score 1 plus the fixed weight of
each active attribute plus the word-count and regulatory-marketplace bonuses,
cut at 6 (complex) and 3 (standard), else lean. -/
theorem c1_complexity_matches_spec (text : String) (a : Attributes) :
    assess_complexity text a = (spec_complexity text a).2 := by
  unfold assess_complexity spec_complexity
  simp only [score_step, weightOf_regulatory, weightOf_marketplace, weightOf_hardware,
    weightOf_realtime, weightOf_data_heavy, weightOf_mobile, weightOf_enterprise,
    weightOf_community, weightOf_developer, weightOf_ai_native]

end Claims


section Claims2

/-- C4: for every domain and attribute map, the "complex" timeline blueprint
exists, has total_duration_weeks = 26, and has exactly five phases whose
duration windows are, in order, Weeks 1-4, 5-9, 10-16, 17-22 and 23-26. -/
theorem c4_complex_timeline (domain : String) (a : Attributes) :
    ∃ b, get_timeline_blueprint domain a "complex" = some b
      ∧ b.total_duration_weeks = 26
      ∧ b.phases.length = 5
      ∧ b.phases.map (fun p => p.duration)
          = ["Weeks 1-4", "Weeks 5-9", "Weeks 10-16", "Weeks 17-22", "Weeks 23-26"] := by
  refine ⟨_, rfl, rfl, rfl, rfl⟩

/-- A successful association-list lookup means the key is among the stored
keys. -/
theorem lookup_mem_keys {β : Type} :
    ∀ (l : List (String × β)) (c : String) (v : β),
      l.lookup c = some v → c ∈ l.map (fun p => p.1)
  | [], _, _, h => by simp [List.lookup] at h
  | (k, w) :: es, c, v, h => by
    rw [List.lookup] at h
    by_cases hck : c == k
    · simp only [List.map_cons, List.mem_cons]
      exact Or.inl (by simpa using hck)
    · simp only [hck, Bool.false_eq_true, if_neg] at h
      · exact List.mem_cons_of_mem _ (lookup_mem_keys es c v h)

/-- C10: the timeline builder is total exactly on the three complexity tiers —
any other complexity string hits the `TIMELINE_WINDOWS[...]` subscript
KeyError, embedded as `none` — while the catalog-backed facet builders fall
back to the default Innovation record for unrecognized categories. -/
theorem c10_timeline_total_only_on_tiers (domain : String) (a : Attributes) (complexity : String) :
    ((get_timeline_blueprint domain a complexity).isSome
      ↔ (complexity = "lean" ∨ complexity = "standard" ∨ complexity = "complex"))
    ∧ (BUSINESS_TEMPLATES.lookup (resolve_category domain) = none →
        businessTemplateFor domain = businessInnovation) := by
  constructor
  · constructor
    · intro h
      cases hw : TIMELINE_WINDOWS.lookup complexity with
      | none => rw [get_timeline_blueprint, hw] at h; simp at h
      | some w =>
        have := lookup_mem_keys TIMELINE_WINDOWS complexity w hw
        simpa [TIMELINE_WINDOWS] using this
    · intro h
      rcases h with rfl | rfl | rfl <;> rfl
  · intro h
    rw [businessTemplateFor, h]
    rfl

/-- Witness for C10 at an unknown complexity and an unknown domain. -/
theorem c10_timeline_total_only_on_tiers_witness :
    BUSINESS_TEMPLATES.lookup (resolve_category "Zzz") = none
    ∧ ((get_timeline_blueprint "Zzz" (detect_attributes "") "weird").isSome
        ↔ ("weird" = "lean" ∨ "weird" = "standard" ∨ "weird" = "complex"))
    ∧ businessTemplateFor "Zzz" = businessInnovation :=
  ⟨by decide,
   (c10_timeline_total_only_on_tiers "Zzz" (detect_attributes "") "weird").1,
   (c10_timeline_total_only_on_tiers "Zzz" (detect_attributes "") "weird").2 (by decide)⟩

end Claims2


section Claims3

/-- The milestones list of any produced timeline blueprint has no duplicates:
the append of the domain note is guarded by a not-already-present test. -/
theorem timeline_milestones_nodup (domain : String) (a : Attributes) (complexity : String) :
    (get_timeline_blueprint domain a complexity).elim True (fun b => b.milestones.Nodup) := by
  rcases hw : TIMELINE_WINDOWS.lookup complexity with _ | w
  · simp [get_timeline_blueprint, hw]
  · rcases ht : TIMELINE_TOTAL.lookup complexity with _ | tot
    · simp [get_timeline_blueprint, hw, ht]
    · simp only [get_timeline_blueprint, hw, ht, Option.elim]
      split
      · rename_i hcond
        refine List.Nodup.append (by decide) (List.nodup_singleton _) ?_
        intro x hx hxm
        exact hcond.2 ((List.mem_singleton.mp hxm) ▸ hx)
      · decide

/-- C3: for every domain, audience, attribute map, complexity and base model,
every list field that the augmentation rules append to — across the business,
tech, design and market synthesizers, plus the timeline milestones — has no
duplicate entries, preserves the order of first appearance of its pre-dedup
sequence, and keeps exactly its members. -/
theorem c3_dedup_invariant (domain audience : String) (a : Attributes)
    (complexity : String) (base_model : Option String) :
    (dedupOK (get_business_playbook domain audience a complexity base_model).revenue_streams
        (business_revenue_raw (businessTemplateFor domain) a)
      ∧ dedupOK (get_business_playbook domain audience a complexity base_model).partners
        (business_partners_raw (businessTemplateFor domain) a)
      ∧ dedupOK (get_business_playbook domain audience a complexity base_model).key_metrics
        (business_key_metrics_raw (businessTemplateFor domain) a)
      ∧ dedupOK (get_business_playbook domain audience a complexity base_model).sales_enablement
        (business_enablement_raw (businessTemplateFor domain) a))
    ∧ (dedupOK (get_tech_playbook domain a complexity).stack
        (tech_stack_raw (techTemplateFor domain) a)
      ∧ dedupOK (get_tech_playbook domain a complexity).ai_components
        (tech_ai_raw (techTemplateFor domain) a)
      ∧ dedupOK (get_tech_playbook domain a complexity).service_components
        (tech_service_raw (techTemplateFor domain) a)
      ∧ dedupOK (get_tech_playbook domain a complexity).devops
        (tech_devops_raw (techTemplateFor domain) a)
      ∧ dedupOK (get_tech_playbook domain a complexity).integration_points
        (tech_integration_raw (techTemplateFor domain) a))
    ∧ (dedupOK (get_design_palette domain audience a complexity).experience_principles
        (design_principles_raw (designTemplateFor domain) a)
      ∧ dedupOK (get_design_palette domain audience a complexity).key_screens
        (design_key_screens_raw (designTemplateFor domain) a)
      ∧ dedupOK (get_design_palette domain audience a complexity).interaction_patterns
        (design_interaction_raw (designTemplateFor domain) a))
    ∧ (dedupOK (get_market_playbook domain audience a complexity).competitors
        (marketTemplateFor domain).competitors
      ∧ dedupOK (get_market_playbook domain audience a complexity).differentiators
        (market_differentiators_raw (marketTemplateFor domain) a)
      ∧ dedupOK (get_market_playbook domain audience a complexity).personas
        (market_personas_raw (marketTemplateFor domain) a)
      ∧ dedupOK (get_market_playbook domain audience a complexity).marketing_channels
        (market_channels_raw (marketTemplateFor domain) a)
      ∧ dedupOK (get_market_playbook domain audience a complexity).market_challenges
        (market_challenges_raw (marketTemplateFor domain) a))
    ∧ (get_timeline_blueprint domain a complexity).elim True (fun b => b.milestones.Nodup) :=
  ⟨⟨dedupOK_dedupFirst _, dedupOK_dedupFirst _, dedupOK_dedupFirst _, dedupOK_dedupFirst _⟩,
   ⟨dedupOK_dedupFirst _, dedupOK_dedupFirst _, dedupOK_dedupFirst _, dedupOK_dedupFirst _,
    dedupOK_dedupFirst _⟩,
   ⟨dedupOK_dedupFirst _, dedupOK_dedupFirst _, dedupOK_dedupFirst _⟩,
   ⟨dedupOK_dedupFirst _, dedupOK_dedupFirst _, dedupOK_dedupFirst _, dedupOK_dedupFirst _,
    dedupOK_dedupFirst _⟩,
   timeline_milestones_nodup domain a complexity⟩

end Claims3


section Claims5

/-- C5 counterexample: a callback that raises on the "running" notification
makes `run_agent` fail instead of returning the synthesizer result — the
source has no try/except around the observer call. -/
theorem c5_observer_exception_counterexample :
    run_agent "BusinessAgent" (fun n : Nat => n + 1) 3
        (some (fun _ _ => Except.error (7 : Nat))) ≠ Except.ok 4 := by
  simp [run_agent]

/-- C5 (amended): an exception in the progress observer propagates out of
`run_agent`. If the "running" notification raises, the synthesizer is never
invoked and the call fails with that exception; if "running" succeeds and
"completed" raises, the call fails even though the synthesizer ran; only when
both notifications succeed is the synthesizer result returned. -/
theorem c5_observer_exception_propagates {P R E : Type} (name : String)
    (agent_callable : P → R) (payload : P) (cb : String → String → Except E Unit) (e : E) :
    (cb name "running" = Except.error e →
      run_agent name agent_callable payload (some cb) = Except.error e)
    ∧ (cb name "running" = Except.ok () → cb name "completed" = Except.error e →
      run_agent name agent_callable payload (some cb) = Except.error e)
    ∧ (cb name "running" = Except.ok () → cb name "completed" = Except.ok () →
      run_agent name agent_callable payload (some cb) = Except.ok (agent_callable payload)) := by
  refine ⟨fun h1 => ?_, fun h1 h2 => ?_, fun h1 h2 => ?_⟩ <;> simp [run_agent, h1]
  · rw [h2]
  · rw [h2]

/-- Witness for the amended C5 at a concrete callback failing on "completed". -/
theorem c5_observer_exception_witness :
    run_agent "TechAgent" (fun n : Nat => n * 2) 5
        (some (fun _ stage => if stage = "running" then Except.ok () else Except.error 9))
      = Except.error 9 :=
  (c5_observer_exception_propagates "TechAgent" (fun n : Nat => n * 2) 5
      (fun _ stage => if stage = "running" then Except.ok () else Except.error 9) 9).2.1
    (by simp) (by simp)

/-- Any score lands in one of the three tier labels. -/
theorem tier_mem (s : Nat) :
    (if s ≥ 6 then "complex" else if s ≥ 3 then "standard" else "lean")
      ∈ (["lean", "standard", "complex"] : List String) := by
  split
  · simp
  · split <;> simp

/-- Every assessed complexity is one of the three tiers. -/
theorem assess_complexity_mem (text : String) (a : Attributes) :
    assess_complexity text a ∈ (["lean", "standard", "complex"] : List String) :=
  tier_mem _

/-- The canned placeholder idea is already stripped. -/
theorem placeholderIdea_trim : pyStrip placeholderIdea = placeholderIdea := by decide

/-- C6: an empty or whitespace-only idea is replaced by the canned placeholder
before processing, so the extraction stage returns exactly the bundle it would
return for the placeholder idea — complete, with a valid complexity tier. -/
theorem c6_empty_input_placeholder (llm : LLM) (oracle : Oracle) (s : String)
    (h : pyStrip s = "") :
    ideaRun llm oracle (some s) = ideaRun llm oracle (some placeholderIdea)
    ∧ (ideaRun llm oracle (some s)).execution_complexity
        ∈ (["lean", "standard", "complex"] : List String) := by
  constructor
  · show ideaRunCore llm oracle (if pyStrip s = "" then placeholderIdea else pyStrip s)
        = ideaRunCore llm oracle
            (if pyStrip placeholderIdea = "" then placeholderIdea else pyStrip placeholderIdea)
    rw [h, placeholderIdea_trim, if_pos rfl, ite_self]
  · exact assess_complexity_mem _ _

/-- Witness for C6 at a concrete whitespace-only input. -/
theorem c6_empty_input_witness :
    ideaRun DeterministicLLMStub (fun _ _ => none) (some "   ")
        = ideaRun DeterministicLLMStub (fun _ _ => none) (some placeholderIdea)
    ∧ (ideaRun DeterministicLLMStub (fun _ _ => none) (some "   ")).execution_complexity
        ∈ (["lean", "standard", "complex"] : List String) :=
  c6_empty_input_placeholder DeterministicLLMStub (fun _ _ => none) "   " (by decide)

end Claims5


section Claims7

/-- A defaulted first-projection of an association-list search is non-empty
when every stored key and the default are non-empty. -/
theorem getD_map_ne_empty {β γ : Type} (o : Option β) (f : β → γ) (d e : γ)
    (ho : ∀ x, o = some x → f x ≠ e) (hd : d ≠ e) : (o.map f).getD d ≠ e := by
  cases o with
  | none => simpa using hd
  | some x => simpa using ho x rfl

/-- The inferred domain is never the empty string: it is one of the eleven
catalog keys or the fixed default. -/
theorem infer_domain_ne_empty (t : String) : infer_domain t ≠ "" := by
  refine getD_map_ne_empty _ _ _ _ ?_ (by decide)
  intro x hx
  have hm := List.mem_of_find?_eq_some hx
  simp only [DOMAIN_CATEGORY, List.mem_cons, List.not_mem_nil, or_false] at hm
  rcases hm with rfl | rfl | rfl | rfl | rfl | rfl | rfl | rfl | rfl | rfl | rfl <;> decide

/-- The assessed complexity is never the empty string. -/
theorem assess_complexity_ne_empty (text : String) (a : Attributes) :
    assess_complexity text a ≠ "" := by
  have h := assess_complexity_mem text a
  simp only [List.mem_cons, List.not_mem_nil, or_false] at h
  rcases h with h | h | h <;> rw [h] <;> decide

/-- C7: when the extractor's bundle is supplied as the idea context, every
downstream synthesizer's domain and complexity selection (the shared
`idea_context.get(...) or recompute` lines of the business, tech, design,
market and timeline agents) returns the bundle's values unchanged, whatever
recomputed fallback the agent would otherwise derive from the raw text. -/
theorem c7_bundle_values_consumed_unchanged (llm : LLM) (oracle : Oracle)
    (ideaField : Option String) :
    (∀ fallback : String,
      ctx_domain (some (ideaRun llm oracle ideaField)) fallback
        = (ideaRun llm oracle ideaField).domain)
    ∧ (∀ fallback : String,
      ctx_complexity (some (ideaRun llm oracle ideaField)) fallback
        = (ideaRun llm oracle ideaField).execution_complexity) := by
  constructor
  · intro fallback
    show orElseStr (some (ideaRun llm oracle ideaField).domain) fallback = _
    rw [orElseStr, if_neg]
    exact infer_domain_ne_empty _
  · intro fallback
    show orElseStr (some (ideaRun llm oracle ideaField).execution_complexity) fallback = _
    rw [orElseStr, if_neg]
    exact assess_complexity_ne_empty _ _

end Claims7


section Claims8

/-- C8: with the deterministic stub as the completion capability, every facet
synthesizer (and the extractor) is a pure function of its inputs: two
invocations with identical payloads but arbitrary, different external
completion oracles give identical results, because the stub path never
consults the oracle. -/
theorem c8_stub_runs_deterministic (ideaField : Option String) (ctx : Option IdeaBundle)
    (business_context : Option BusinessOutput) (tech_context : Option TechOutput)
    (oracle₁ oracle₂ : Oracle) :
    ideaRun DeterministicLLMStub oracle₁ ideaField = ideaRun DeterministicLLMStub oracle₂ ideaField
    ∧ businessRun DeterministicLLMStub oracle₁ ideaField ctx
        = businessRun DeterministicLLMStub oracle₂ ideaField ctx
    ∧ techRun DeterministicLLMStub oracle₁ ideaField ctx
        = techRun DeterministicLLMStub oracle₂ ideaField ctx
    ∧ designRun DeterministicLLMStub oracle₁ ideaField ctx
        = designRun DeterministicLLMStub oracle₂ ideaField ctx
    ∧ marketRun DeterministicLLMStub oracle₁ ideaField ctx
        = marketRun DeterministicLLMStub oracle₂ ideaField ctx
    ∧ timelineRun DeterministicLLMStub oracle₁ ideaField ctx business_context tech_context
        = timelineRun DeterministicLLMStub oracle₂ ideaField ctx business_context tech_context :=
  ⟨rfl, rfl, rfl, rfl, rfl, rfl⟩

end Claims8


section Claims2b

set_option maxRecDepth 10000

/-- C2: on the input "A marketplace for climate-tech hardware sensors
connecting regulated enterprise buyers and vendors", attribute detection sets
marketplace, hardware, regulatory and enterprise all true, the assessed
complexity is "complex", and the business synthesizer run on the extracted
bundle lists the marketplace-commission revenue entry and gains the
enterprise-enablement partner entry. -/
theorem c2_marketplace_scenario :
    ((detect_attributes "A marketplace for climate-tech hardware sensors connecting regulated enterprise buyers and vendors").marketplace = true
      ∧ (detect_attributes "A marketplace for climate-tech hardware sensors connecting regulated enterprise buyers and vendors").hardware = true
      ∧ (detect_attributes "A marketplace for climate-tech hardware sensors connecting regulated enterprise buyers and vendors").regulatory = true
      ∧ (detect_attributes "A marketplace for climate-tech hardware sensors connecting regulated enterprise buyers and vendors").enterprise = true)
    ∧ assess_complexity
        "A marketplace for climate-tech hardware sensors connecting regulated enterprise buyers and vendors"
        (detect_attributes "A marketplace for climate-tech hardware sensors connecting regulated enterprise buyers and vendors")
      = "complex"
    ∧ "Curated marketplace commissions and vendor sponsorships"
        ∈ (businessRun DeterministicLLMStub (fun _ _ => none)
            (some "A marketplace for climate-tech hardware sensors connecting regulated enterprise buyers and vendors")
            (some (ideaRun DeterministicLLMStub (fun _ _ => none)
              (some "A marketplace for climate-tech hardware sensors connecting regulated enterprise buyers and vendors")))).revenue_streams
    ∧ "Enterprise enablement consultancies"
        ∈ (businessRun DeterministicLLMStub (fun _ _ => none)
            (some "A marketplace for climate-tech hardware sensors connecting regulated enterprise buyers and vendors")
            (some (ideaRun DeterministicLLMStub (fun _ _ => none)
              (some "A marketplace for climate-tech hardware sensors connecting regulated enterprise buyers and vendors")))).partners := by
  refine ⟨⟨?_, ?_, ?_, ?_⟩, ?_, ?_, ?_⟩ <;> decide

end Claims2b


section Claims9

/-- Store cells below a bound are preserved between two stores. -/
def preservesBelow (n : Nat) (st st' : Store) : Prop :=
  ∀ r, r < n → readRef st' r = readRef st r

theorem preservesBelow_trans {n : Nat} {st st' st'' : Store}
    (h1 : preservesBelow n st st') (h2 : preservesBelow n st' st'') :
    preservesBelow n st st'' :=
  fun r hr => (h2 r hr).trans (h1 r hr)

theorem preservesBelow_append {n : Nat} (st : Store) (v : List String)
    (h : n ≤ st.length) : preservesBelow n st (st ++ [v]) := by
  intro r hr
  simp only [readRef, List.getD_eq_getElem?_getD]
  rw [List.getElem?_append_left (Nat.lt_of_lt_of_le hr h)]

theorem readRef_set_ne (st : Store) (i : Nat) (v : List String) (r : Nat)
    (h : r ≠ i) : readRef (st.set i v) r = readRef st r := by
  simp only [readRef, List.getD_eq_getElem?_getD]
  rw [List.getElem?_set_ne (fun he => h he.symm)]

theorem preservesBelow_appendRef {n : Nat} {st st' : Store} {ref : Nat} (x : String)
    (hr : n ≤ ref) (hp : preservesBelow n st st') :
    preservesBelow n st (appendRef st' ref x) := by
  intro r hlt
  rw [appendRef, writeRef, readRef_set_ne _ _ _ _ (Nat.ne_of_lt (Nat.lt_of_lt_of_le hlt hr))]
  exact hp r hlt

theorem preservesBelow_iteAppend {n : Nat} {st st' : Store} {ref : Nat}
    (c : Prop) [Decidable c] (x : String) (hr : n ≤ ref) (hp : preservesBelow n st st') :
    preservesBelow n st (if c then appendRef st' ref x else st') := by
  split
  · exact preservesBelow_appendRef x hr hp
  · exact hp

/-- The conditional appends of the business playbook only touch the four fresh
cells, so anything below the original store length is untouched. -/
theorem businessAugment_preserves {n : Nat} {st st' : Store} {r1 r2 r3 r4 : Nat}
    (a : Attributes) (h1 : n ≤ r1) (h2 : n ≤ r2) (h3 : n ≤ r3) (h4 : n ≤ r4)
    (hp : preservesBelow n st st') :
    preservesBelow n st (businessAugment st' r1 r2 r3 r4 a) := by
  unfold businessAugment
  exact preservesBelow_iteAppend _ _ h4 (preservesBelow_iteAppend _ _ h2
    (preservesBelow_iteAppend _ _ h3 (preservesBelow_iteAppend _ _ h1
      (preservesBelow_iteAppend _ _ h4 (preservesBelow_iteAppend _ _ h1
        (preservesBelow_iteAppend _ _ h1 hp))))))

/-- The conditional appends of the tech playbook only touch the five fresh
cells. -/
theorem techAugment_preserves {n : Nat} {st st' : Store} {r1 r2 r3 r4 r5 : Nat}
    (a : Attributes) (h1 : n ≤ r1) (h2 : n ≤ r2) (h3 : n ≤ r3) (h4 : n ≤ r4)
    (h5 : n ≤ r5) (hp : preservesBelow n st st') :
    preservesBelow n st (techAugment st' r1 r2 r3 r4 r5 a) := by
  unfold techAugment
  exact preservesBelow_iteAppend _ _ h4 (preservesBelow_iteAppend _ _ h4
    (preservesBelow_iteAppend _ _ h5 (preservesBelow_iteAppend _ _ h1
      (preservesBelow_iteAppend _ _ h3 (preservesBelow_iteAppend _ _ h1
        (preservesBelow_iteAppend _ _ h2 (preservesBelow_iteAppend _ _ h3
          (preservesBelow_iteAppend _ _ h2 (preservesBelow_iteAppend _ _ h1 hp)))))))))

/-- The conditional appends of the design palette only touch the three fresh
cells. -/
theorem designAugment_preserves {n : Nat} {st st' : Store} {r1 r2 r3 : Nat}
    (a : Attributes) (h1 : n ≤ r1) (h2 : n ≤ r2) (h3 : n ≤ r3)
    (hp : preservesBelow n st st') :
    preservesBelow n st (designAugment st' r1 r2 r3 a) := by
  unfold designAugment
  exact preservesBelow_iteAppend _ _ h2 (preservesBelow_iteAppend _ _ h2
    (preservesBelow_iteAppend _ _ h3 (preservesBelow_iteAppend _ _ h1
      (preservesBelow_iteAppend _ _ h1 (preservesBelow_iteAppend _ _ h3 hp)))))

/-- The conditional appends of the market playbook only touch the four fresh
cells it appends to. -/
theorem marketAugment_preserves {n : Nat} {st st' : Store} {r1 r2 r3 r4 : Nat}
    (a : Attributes) (h1 : n ≤ r1) (h2 : n ≤ r2) (h3 : n ≤ r3) (h4 : n ≤ r4)
    (hp : preservesBelow n st st') :
    preservesBelow n st (marketAugment st' r1 r2 r3 r4 a) := by
  unfold marketAugment
  exact preservesBelow_iteAppend _ _ h3 (preservesBelow_iteAppend _ _ h2
    (preservesBelow_iteAppend _ _ h3 (preservesBelow_iteAppend _ _ h1
      (preservesBelow_iteAppend _ _ h4 (preservesBelow_iteAppend _ _ h1 hp)))))

/-- C9: building any facet playbook in the heap model — business, tech, design
or market — leaves every pre-existing store cell, in particular the shared
catalog's template lists, byte-identical: all list fields are copied into
fresh cells before any append. -/
theorem c9_catalog_unchanged (st : Store) (bt : BusinessTemplateRefs)
    (tt : TechTemplateRefs) (dt : DesignTemplateRefs) (mt : MarketTemplateRefs)
    (domain audience : String) (a : Attributes)
    (complexity : String) (base_model : Option String) (r : Nat) (hr : r < st.length) :
    readRef ((get_business_playbook_heap st bt domain audience a complexity base_model).2) r
      = readRef st r
    ∧ readRef ((get_tech_playbook_heap st tt domain a complexity).2) r = readRef st r
    ∧ readRef ((get_design_palette_heap st dt audience a complexity).2) r = readRef st r
    ∧ readRef ((get_market_playbook_heap st mt a complexity).2) r = readRef st r := by
  refine ⟨?_, ?_, ?_, ?_⟩
  · refine businessAugment_preserves a ?_ ?_ ?_ ?_ ?_ r hr
    · exact Nat.le_refl _
    · simp [allocRef]
    · simp [allocRef]
    · simp [allocRef]
    · refine preservesBelow_trans (preservesBelow_trans (preservesBelow_trans
        (preservesBelow_append st _ (Nat.le_refl _))
        (preservesBelow_append _ _ (by simp [allocRef])))
        (preservesBelow_append _ _ (by simp [allocRef])))
        (preservesBelow_append _ _ (by simp [allocRef]))
  · refine techAugment_preserves a ?_ ?_ ?_ ?_ ?_ ?_ r hr
    · exact Nat.le_refl _
    · simp [allocRef]
    · simp [allocRef]
    · simp [allocRef]
    · simp [allocRef]
    · refine preservesBelow_trans (preservesBelow_trans (preservesBelow_trans
        (preservesBelow_trans (preservesBelow_append st _ (Nat.le_refl _))
          (preservesBelow_append _ _ (by simp [allocRef])))
          (preservesBelow_append _ _ (by simp [allocRef])))
          (preservesBelow_append _ _ (by simp [allocRef])))
          (preservesBelow_append _ _ (by simp [allocRef]))
  · refine designAugment_preserves a ?_ ?_ ?_ ?_ r hr
    · exact Nat.le_refl _
    · simp [allocRef]
    · simp [allocRef]
    · refine preservesBelow_trans (preservesBelow_trans
        (preservesBelow_append st _ (Nat.le_refl _))
        (preservesBelow_append _ _ (by simp [allocRef])))
        (preservesBelow_append _ _ (by simp [allocRef]))
  · refine marketAugment_preserves a ?_ ?_ ?_ ?_ ?_ r hr
    · simp [allocRef]
    · simp [allocRef]
    · simp [allocRef]
    · simp [allocRef]
    · refine preservesBelow_trans (preservesBelow_trans (preservesBelow_trans
        (preservesBelow_trans (preservesBelow_append st _ (Nat.le_refl _))
          (preservesBelow_append _ _ (by simp [allocRef])))
          (preservesBelow_append _ _ (by simp [allocRef])))
          (preservesBelow_append _ _ (by simp [allocRef])))
          (preservesBelow_append _ _ (by simp [allocRef]))

/-- Witness for C9 at a concrete one-cell store. -/
theorem c9_catalog_unchanged_witness :
    (0 : Nat) < ([["cell"]] : Store).length
    ∧ (readRef ((get_business_playbook_heap [["cell"]]
          { model := "m", pricing := "p", revenue := 0, gtm := "g", partners := 0,
            key_metrics := 0, enablement := 0, expansion := "e" }
          "d" "au" (detect_attributes "") "lean" none).2) 0 = readRef [["cell"]] 0
      ∧ readRef ((get_tech_playbook_heap [["cell"]]
          { architecture := "ar", stack := 0, ai := 0, service := 0, data := "da",
            devops := 0, integration := 0 } "d" (detect_attributes "") "lean").2) 0
        = readRef [["cell"]] 0
      ∧ readRef ((get_design_palette_heap [["cell"]]
          { principles := 0, key_screens := 0, interaction := 0, voice := "v",
            visual := "vi", tone := "t" } "au" (detect_attributes "") "lean").2) 0
        = readRef [["cell"]] 0
      ∧ readRef ((get_market_playbook_heap [["cell"]]
          { segment := "s", competitors := 0, differentiators := 0, personas := 0,
            channels := 0, challenges := 0, positioning := "po", launch := "la" }
          (detect_attributes "") "lean").2) 0
        = readRef [["cell"]] 0) :=
  ⟨by decide,
   c9_catalog_unchanged [["cell"]]
     { model := "m", pricing := "p", revenue := 0, gtm := "g", partners := 0,
       key_metrics := 0, enablement := 0, expansion := "e" }
     { architecture := "ar", stack := 0, ai := 0, service := 0, data := "da",
       devops := 0, integration := 0 }
     { principles := 0, key_screens := 0, interaction := 0, voice := "v",
       visual := "vi", tone := "t" }
     { segment := "s", competitors := 0, differentiators := 0, personas := 0,
       channels := 0, challenges := 0, positioning := "po", launch := "la" }
     "d" "au" (detect_attributes "") "lean" none 0 (by decide)⟩

end Claims9

end Akcero
